import Mathlib

/-!
# Socket identity extraction: bpf/process/types/sock.h

A shallow embedding of the two population routines of sock.h,
set_event_from_sock and set_event_from_sockaddr, together with the record
they fill (struct sk_type with its embedded struct tuple_type).

The routines only touch kernel memory through probe_read, so the embedding
passes an explicit environment: a byte-addressed memory in which an address
may be unreadable, the byte order of the target, and the field offsets that
the loader resolves for struct sock and for the socket address structures.
Scalar fields of the record are natural numbers holding the value of the
field as the target reads it; the two address buffers are sequences of
sixteen bytes.
-/

namespace Sock

/-! ## Constants -/

/-- Address family tag of an unspecified family (linux/socket.h). -/
abbrev AF_UNSPEC : Nat := 0

/-- Address family tag of IPv4 (linux/socket.h). -/
abbrev AF_INET : Nat := 2

/-- Address family tag of IPv6 (linux/socket.h). -/
abbrev AF_INET6 : Nat := 10

/-- Modelled from the spec: IPV4LEN of tuple.h, the byte length of an IPv4
address (the spec's 4-byte address). -/
abbrev IPV4LEN : Nat := 4

/-- Modelled from the spec: IPV6LEN of tuple.h, the byte length of an IPv6
address (the spec's 16-byte address). -/
abbrev IPV6LEN : Nat := 16

/-! ## Bytes and byte order -/

/-- One byte of memory. -/
abbrev Byte := Fin 256

/-- Value of a byte sequence read least significant byte first. -/
def decodeLE : List Byte → Nat
  | [] => 0
  | b :: bs => b.val + 256 * decodeLE bs

/-- Value of a byte sequence as the target reads it: least significant byte
first on a little-endian target, most significant byte first otherwise. -/
def hostDecode (le : Bool) (bs : List Byte) : Nat :=
  if le then decodeLE bs else decodeLE bs.reverse

/-- The n low bytes of v, least significant first. -/
def encodeLE : Nat → Nat → List Byte
  | 0, _ => []
  | n + 1, v => ⟨v % 256, Nat.mod_lt v (by decide)⟩ :: encodeLE n (v / 256)

/-- The n bytes the target stores for the value v. -/
def hostEncode (le : Bool) (n v : Nat) : List Byte :=
  if le then encodeLE n v else (encodeLE n v).reverse

/-- Byte swap of a 16-bit value (__builtin_bswap16). -/
def bswap16 (v : Nat) : Nat :=
  (v % 256) * 256 + (v / 256) % 256

/-- Modelled from the spec: bpf_ntohs of bpf_endian.h, the network-to-host
16-bit conversion: a byte swap on a little-endian target, the identity on a
big-endian one. -/
def bpf_ntohs (le : Bool) (v : Nat) : Nat :=
  if le then bswap16 v else v

/-! ## The record -/

/-- A 16-byte address buffer: the storage of __u64 saddr[2] or daddr[2]. -/
structure AddrBuf where
  bytes : List Byte
  size_eq : bytes.length = 16
deriving DecidableEq

/-- The address buffer with all sixteen bytes zero. -/
def AddrBuf.zero : AddrBuf := ⟨List.replicate 16 0, by simp⟩

/-- Overwrite the bytes of the buffer from offset off on with bs; the other
bytes keep their value. -/
def AddrBuf.write (buf : AddrBuf) (off : Nat) (bs : List Byte) : AddrBuf :=
  ⟨(buf.bytes.take off ++ bs ++ buf.bytes.drop (off + bs.length)).take 16, by
    have h := buf.size_eq
    simp only [List.length_take, List.length_append, List.length_drop, h]
    omega⟩

/-- The assignment buf[i] = v to one of the two 64-bit words of a buffer. -/
def AddrBuf.setWord (le : Bool) (buf : AddrBuf) (i v : Nat) : AddrBuf :=
  buf.write (8 * i) (hostEncode le 8 (v % 2 ^ 64))

/-- Modelled from the spec: struct tuple_type of tuple.h, the network tuple:
two 16-byte address buffers and the 16-bit ports, protocol and family. -/
structure tuple_type where
  saddr : AddrBuf
  daddr : AddrBuf
  sport : Nat
  dport : Nat
  protocol : Nat
  family : Nat
deriving DecidableEq

/-- The record struct sk_type. -/
structure sk_type where
  tuple : tuple_type
  sockaddr : Nat
  mark : Nat
  priority : Nat
  type : Nat
  state : Nat
  pad : List Byte
deriving DecidableEq

/-- The zero-initialised record. -/
def sk_type.zero : sk_type :=
  { tuple := { saddr := AddrBuf.zero, daddr := AddrBuf.zero, sport := 0, dport := 0,
               protocol := 0, family := 0 },
    sockaddr := 0, mark := 0, priority := 0, type := 0, state := 0,
    pad := List.replicate 5 0 }

/-! ## The environment of a call -/

/-- Offsets of the fields of struct sock (whose first member is the common
header struct sock_common) that the routine reads, and the storage size of
sk_protocol, as resolved for the running kernel. -/
structure sock_layout where
  skc_family : Nat
  skc_state : Nat
  sk_type : Nat
  sk_protocol : Nat
  sk_protocol_size : Nat
  sk_mark : Nat
  sk_priority : Nat
  skc_rcv_saddr : Nat
  skc_daddr : Nat
  skc_v6_rcv_saddr : Nat
  skc_v6_daddr : Nat
  skc_num : Nat
  skc_dport : Nat

/-- Offsets of the fields of struct sockaddr, struct sockaddr_in and
struct sockaddr_in6 that the routine reads. -/
structure sockaddr_layout where
  sa_family : Nat
  sin_addr : Nat
  sin_port : Nat
  sin6_addr : Nat
  sin6_port : Nat

/-- What a call depends on besides its arguments: the byte order of the
target, the memory (an address holds a byte or is unreadable) and the two
layouts. -/
structure Env where
  littleEndian : Bool
  mem : Nat → Option Byte
  sock : sock_layout
  sa : sockaddr_layout

/-- The size bytes of memory from address src on, when all are readable. -/
def Env.read (env : Env) (src : Nat) : Nat → Option (List Byte)
  | 0 => some []
  | size + 1 =>
    match env.mem src, Env.read env (src + 1) size with
    | some b, some bs => some (b :: bs)
    | _, _ => none

/-- Modelled from the spec: probe_read into a scalar field of the record. A
successful read stores the value of the size bytes at src; a failed read
leaves the field at its prior value. -/
def probe_read_scalar (env : Env) (dst : Nat) (size : Nat) (src : Nat) : Nat :=
  match env.read src size with
  | some bs => hostDecode env.littleEndian bs
  | none => dst

/-- Modelled from the spec: probe_read into an address buffer. A successful
read copies the size bytes at src to the start of the buffer; a failed read
leaves the buffer at its prior value. -/
def probe_read_bytes (env : Env) (dst : AddrBuf) (size : Nat) (src : Nat) : AddrBuf :=
  match env.read src size with
  | some bs => dst.write 0 bs
  | none => dst

/-! ## The two routines -/

/-- The routine set_event_from_sock: populate the record from the socket at
address sk. -/
def set_event_from_sock (env : Env) (event : sk_type) (sk : Nat) : sk_type :=
  let le := env.littleEndian
  let event := { event with sockaddr := sk % 2 ^ 64 }
  let event := { event with
    tuple.family := probe_read_scalar env event.tuple.family 2 (sk + env.sock.skc_family) }
  let event := { event with
    state := probe_read_scalar env event.state 1 (sk + env.sock.skc_state) }
  let event := { event with
    type := probe_read_scalar env event.type 2 (sk + env.sock.sk_type) }
  let event := { event with
    tuple.protocol := probe_read_scalar env event.tuple.protocol 2 (sk + env.sock.sk_protocol) }
  let event :=
    if env.sock.sk_protocol_size = 4 then
      { event with tuple.protocol := (event.tuple.protocol >>> 8) % 2 ^ 16 }
    else event
  let event := { event with
    mark := probe_read_scalar env event.mark 4 (sk + env.sock.sk_mark) }
  let event := { event with
    priority := probe_read_scalar env event.priority 4 (sk + env.sock.sk_priority) }
  let event := { event with tuple.saddr := event.tuple.saddr.setWord le 0 0 }
  let event := { event with tuple.saddr := event.tuple.saddr.setWord le 1 0 }
  let event := { event with tuple.daddr := event.tuple.daddr.setWord le 0 0 }
  let event := { event with tuple.daddr := event.tuple.daddr.setWord le 1 0 }
  let event :=
    if event.tuple.family = AF_INET then
      let event := { event with
        tuple.saddr := probe_read_bytes env event.tuple.saddr IPV4LEN (sk + env.sock.skc_rcv_saddr) }
      { event with
        tuple.daddr := probe_read_bytes env event.tuple.daddr IPV4LEN (sk + env.sock.skc_daddr) }
    else if event.tuple.family = AF_INET6 then
      let event := { event with
        tuple.saddr := probe_read_bytes env event.tuple.saddr IPV6LEN (sk + env.sock.skc_v6_rcv_saddr) }
      { event with
        tuple.daddr := probe_read_bytes env event.tuple.daddr IPV6LEN (sk + env.sock.skc_v6_daddr) }
    else event
  let event := { event with
    tuple.sport := probe_read_scalar env event.tuple.sport 2 (sk + env.sock.skc_num) }
  let event := { event with
    tuple.dport := probe_read_scalar env event.tuple.dport 2 (sk + env.sock.skc_dport) }
  { event with tuple.dport := bpf_ntohs le event.tuple.dport }

/-- The routine set_event_from_sockaddr: populate the tuple of the record
from the address structure at address addr. -/
def set_event_from_sockaddr (env : Env) (event : sk_type) (addr : Nat) : sk_type :=
  let le := env.littleEndian
  let event := { event with
    tuple.family := probe_read_scalar env event.tuple.family 2 (addr + env.sa.sa_family) }
  if event.tuple.family = AF_INET then
    let event := { event with
      tuple.saddr := probe_read_bytes env event.tuple.saddr IPV4LEN (addr + env.sa.sin_addr) }
    let event := { event with tuple.daddr := event.tuple.daddr.setWord le 0 0 }
    let event := { event with tuple.daddr := event.tuple.daddr.setWord le 1 0 }
    let event := { event with
      tuple.sport := probe_read_scalar env event.tuple.sport 2 (addr + env.sa.sin_port) }
    { event with tuple.dport := 0 }
  else if event.tuple.family = AF_INET6 then
    let event := { event with
      tuple.saddr := probe_read_bytes env event.tuple.saddr IPV6LEN (addr + env.sa.sin6_addr) }
    let event := { event with tuple.daddr := event.tuple.daddr.setWord le 0 0 }
    let event := { event with tuple.daddr := event.tuple.daddr.setWord le 1 0 }
    let event := { event with
      tuple.sport := probe_read_scalar env event.tuple.sport 2 (addr + env.sa.sin6_port) }
    { event with tuple.dport := 0 }
  else
    let event := { event with tuple.family := AF_UNSPEC }
    let event := { event with tuple.saddr := event.tuple.saddr.setWord le 0 0 }
    let event := { event with tuple.saddr := event.tuple.saddr.setWord le 1 0 }
    let event := { event with tuple.daddr := event.tuple.daddr.setWord le 0 0 }
    let event := { event with tuple.daddr := event.tuple.daddr.setWord le 1 0 }
    let event := { event with tuple.sport := 0 }
    { event with tuple.dport := 0 }

/-! ## The family tag the routines dispatch on -/

/-- The family tag held in the record after the family read of
set_event_from_sock. -/
def sock_family (env : Env) (event : sk_type) (sk : Nat) : Nat :=
  probe_read_scalar env event.tuple.family 2 (sk + env.sock.skc_family)

/-- The family tag held in the record after the family read of
set_event_from_sockaddr. -/
def sockaddr_family (env : Env) (event : sk_type) (addr : Nat) : Nat :=
  probe_read_scalar env event.tuple.family 2 (addr + env.sa.sa_family)

/-! ## The reads of the two routines -/

/-- The outcomes of the twelve reads that set_event_from_sock may perform on
the socket at address sk, in the order of the source. -/
def sock_reads (env : Env) (sk : Nat) : List (Option (List Byte)) :=
  [env.read (sk + env.sock.skc_family) 2,
   env.read (sk + env.sock.skc_state) 1,
   env.read (sk + env.sock.sk_type) 2,
   env.read (sk + env.sock.sk_protocol) 2,
   env.read (sk + env.sock.sk_mark) 4,
   env.read (sk + env.sock.sk_priority) 4,
   env.read (sk + env.sock.skc_rcv_saddr) IPV4LEN,
   env.read (sk + env.sock.skc_daddr) IPV4LEN,
   env.read (sk + env.sock.skc_v6_rcv_saddr) IPV6LEN,
   env.read (sk + env.sock.skc_v6_daddr) IPV6LEN,
   env.read (sk + env.sock.skc_num) 2,
   env.read (sk + env.sock.skc_dport) 2]

/-- The outcomes of the five reads that set_event_from_sockaddr may perform
on the address structure at address addr, in the order of the source. -/
def sockaddr_reads (env : Env) (addr : Nat) : List (Option (List Byte)) :=
  [env.read (addr + env.sa.sa_family) 2,
   env.read (addr + env.sa.sin_addr) IPV4LEN,
   env.read (addr + env.sa.sin_port) 2,
   env.read (addr + env.sa.sin6_addr) IPV6LEN,
   env.read (addr + env.sa.sin6_port) 2]

/-! ## Concrete inputs -/

/-- A memory given by the fields of one object: the bytes of each listed
field, at its offset from base, are readable and every other address is
unreadable. -/
def memOfFields (base : Nat) (fields : List (Nat × List Byte)) : Nat → Option Byte :=
  fun a => fields.findSome? fun f =>
    if base + f.1 ≤ a then f.2[a - (base + f.1)]? else none

/-- Field offsets of struct sock_common as on x86-64 Linux, with the four
fields of struct sock placed after the common header. -/
def linuxSock (protocolSize : Nat) : sock_layout :=
  { skc_daddr := 0, skc_rcv_saddr := 4, skc_dport := 12, skc_num := 14,
    skc_family := 16, skc_state := 18, skc_v6_daddr := 56, skc_v6_rcv_saddr := 72,
    sk_priority := 136, sk_mark := 140, sk_protocol := 144, sk_type := 146,
    sk_protocol_size := protocolSize }

/-- Field offsets of struct sockaddr, sockaddr_in and sockaddr_in6 on Linux. -/
def linuxSockaddr : sockaddr_layout :=
  { sa_family := 0, sin_port := 2, sin_addr := 4, sin6_port := 2, sin6_addr := 8 }

/-- An environment over the Linux layouts. -/
def linuxEnv (le : Bool) (protocolSize : Nat) (mem : Nat → Option Byte) : Env :=
  { littleEndian := le, mem := mem, sock := linuxSock protocolSize, sa := linuxSockaddr }

/-- A record whose every byte is 0xAA, as a poisoned destination. -/
def sk_type.poison : sk_type :=
  { tuple := { saddr := ⟨List.replicate 16 0xAA, by simp⟩,
               daddr := ⟨List.replicate 16 0xAA, by simp⟩,
               sport := 0xAAAA, dport := 0xAAAA, protocol := 0xAAAA, family := 0xAAAA },
    sockaddr := 0xAAAAAAAAAAAAAAAA, mark := 0xAAAAAAAA, priority := 0xAAAAAAAA,
    type := 0xAAAA, state := 0xAA, pad := List.replicate 5 0xAA }

/-- Memory holding one fully readable socket at address 4096, laid out as
linuxSock, with the given bytes in its family and protocol fields: state 1,
type 1, mark 7, priority 0, IPv4 addresses 192.0.2.1 (receive) and
203.0.113.5 (peer), IPv6 addresses 2001:db8::1 (receive) and 2001:db8::2
(peer), local port bytes 0x90 0x1f and peer port bytes 0x00 0x50. -/
def sockMem (family protocol : List Byte) : Nat → Option Byte :=
  memOfFields 4096
    [(16, family), (18, [1]), (146, [1, 0]), (144, protocol), (140, [7, 0, 0, 0]),
     (136, [0, 0, 0, 0]), (4, [192, 0, 2, 1]), (0, [203, 0, 113, 5]),
     (72, [0x20, 0x01, 0x0d, 0xb8, 0, 0, 0, 0, 0, 0, 0, 0, 0, 0, 0, 1]),
     (56, [0x20, 0x01, 0x0d, 0xb8, 0, 0, 0, 0, 0, 0, 0, 0, 0, 0, 0, 2]),
     (14, [0x90, 0x1f]), (12, [0x00, 0x50])]

/-- Memory holding one readable address structure with the given bytes at
address 100. -/
def sockaddrMem (bytes : List Byte) : Nat → Option Byte :=
  memOfFields 100 [(0, bytes)]

/-- The bytes of a little-endian struct sockaddr_in: family AF_INET, port
field value 0x0050, address 10.0.0.1. -/
def sockaddrInBytes : List Byte :=
  [2, 0, 0x50, 0x00, 10, 0, 0, 1, 0, 0, 0, 0, 0, 0, 0, 0]

/-- The bytes of a little-endian struct sockaddr_in6: family AF_INET6, port
field value 0x0050, flow information 0, address 2001:db8::1, scope 0. -/
def sockaddrIn6Bytes : List Byte :=
  [10, 0, 0x50, 0x00, 0, 0, 0, 0,
   0x20, 0x01, 0x0d, 0xb8, 0, 0, 0, 0, 0, 0, 0, 0, 0, 0, 0, 1,
   0, 0, 0, 0]

/-- The first bytes of a little-endian struct sockaddr_un (family AF_UNIX,
path /tmp/s). -/
def sockaddrUnBytes : List Byte :=
  [1, 0, 0x2f, 0x74, 0x6d, 0x70, 0x2f, 0x73, 0, 0, 0, 0, 0, 0, 0, 0]

/-- A little-endian target with the native 2-byte sk_protocol holding one
AF_UNIX socket at address 4096. -/
def unixSockEnv : Env := linuxEnv true 2 (sockMem [1, 0] [0, 0])

/-- A little-endian target with the native 2-byte sk_protocol holding one
AF_INET socket of protocol 6 at address 4096. -/
def inetSockEnv : Env := linuxEnv true 2 (sockMem [2, 0] [6, 0])

/-- A little-endian target with the native 2-byte sk_protocol holding one
AF_INET6 socket of protocol 6 at address 4096. -/
def inet6SockEnv : Env := linuxEnv true 2 (sockMem [10, 0] [6, 0])

/-- A little-endian target on which sk_protocol is stored in 4 bytes, holding
one AF_INET socket at address 4096 whose protocol read gives 0x0600. -/
def oldKernelSockEnv : Env := linuxEnv true 4 (sockMem [2, 0] [0x00, 0x06])

/-- A big-endian target with the native 2-byte sk_protocol holding one AF_INET
socket of protocol 6 at address 4096. -/
def bigEndianSockEnv : Env := linuxEnv false 2 (sockMem [0, 2] [0, 6])

/-- A target on which no address is readable. -/
def unreadableEnv : Env := linuxEnv true 2 (fun _ => none)

/-- A little-endian target holding an AF_UNIX address structure at address
100. -/
def unixSockaddrEnv : Env := linuxEnv true 2 (sockaddrMem sockaddrUnBytes)

/-- A little-endian target holding a struct sockaddr_in at address 100. -/
def inetSockaddrEnv : Env := linuxEnv true 2 (sockaddrMem sockaddrInBytes)

/-- A little-endian target holding a struct sockaddr_in6 at address 100. -/
def inet6SockaddrEnv : Env := linuxEnv true 2 (sockaddrMem sockaddrIn6Bytes)

/-- A little-endian target on which sk_protocol is stored in 4 bytes and no
address is readable. -/
def oldKernelUnreadableEnv : Env := linuxEnv true 4 (fun _ => none)

/-- A little-endian target holding both a struct sockaddr_in at address 100
and an AF_INET socket of protocol 6 at address 4096. -/
def inetBothEnv : Env :=
  linuxEnv true 2 fun a =>
    if a < 4096 then sockaddrMem sockaddrInBytes a else sockMem [2, 0] [6, 0] a

/-- The environment inetBothEnv with one more readable byte, at address 5000,
outside of the socket and of the address structure. -/
def inetBothEnvExtra : Env :=
  { inetBothEnv with mem := fun a => if a = 5000 then some 0xFF else inetBothEnv.mem a }

/-- A record that is zero except for its family, which is AF_INET. -/
def sk_type.zeroInet : sk_type :=
  { sk_type.zero with tuple.family := AF_INET }

/-- A record that is zero except for its destination port 0x0050 and its
protocol 0x0600. -/
def sk_type.zeroStale : sk_type :=
  { sk_type.zero with tuple.dport := 0x0050, tuple.protocol := 0x0600 }

/-- The poisoned record with its raw handle and both address buffers
zeroed: it agrees with the poisoned record on every scalar field that
set_event_from_sock reads and on the pad bytes. -/
def sk_type.poisonScalars : sk_type :=
  { sk_type.poison with
    sockaddr := 0, tuple.saddr := AddrBuf.zero, tuple.daddr := AddrBuf.zero }

/-- The zero record with the pad bytes of the poisoned record. -/
def sk_type.zeroPoisonPad : sk_type :=
  { sk_type.zero with pad := sk_type.poison.pad }

/-! ## Lemmas on bytes, buffers and reads -/

theorem Env.read_length (env : Env) :
    ∀ (size src : Nat) (bs : List Byte), env.read src size = some bs → bs.length = size := by
  intro size
  induction size with
  | zero =>
    intro src bs h
    simp only [Env.read, Option.some.injEq] at h
    subst h
    rfl
  | succ n ih =>
    intro src bs h
    unfold Env.read at h
    cases hb : env.mem src with
    | none => simp [hb] at h
    | some b =>
      cases hr : env.read (src + 1) n with
      | none => simp [hb, hr] at h
      | some rest =>
        simp only [hb, hr, Option.some.injEq] at h
        subst h
        simp [ih (src + 1) rest hr]

theorem decodeLE_lt (bs : List Byte) : decodeLE bs < 256 ^ bs.length := by
  induction bs with
  | nil => simp [decodeLE]
  | cons b bs ih =>
    have hb := b.isLt
    simp only [decodeLE, List.length_cons, pow_succ]
    omega

theorem hostDecode_lt (le : Bool) (bs : List Byte) : hostDecode le bs < 256 ^ bs.length := by
  unfold hostDecode
  split
  · exact decodeLE_lt bs
  · simpa using decodeLE_lt bs.reverse

theorem hostEncode_zero (le : Bool) : hostEncode le 8 (0 % 2 ^ 64) = List.replicate 8 0 := by
  cases le <;> rfl

theorem list_length_16 {α : Type} (l : List α) (h : l.length = 16) :
    ∃ a0 a1 a2 a3 a4 a5 a6 a7 a8 a9 a10 a11 a12 a13 a14 a15,
      l = [a0, a1, a2, a3, a4, a5, a6, a7, a8, a9, a10, a11, a12, a13, a14, a15] := by
  match l, h with
  | [a0, a1, a2, a3, a4, a5, a6, a7, a8, a9, a10, a11, a12, a13, a14, a15], _ =>
    exact ⟨a0, a1, a2, a3, a4, a5, a6, a7, a8, a9, a10, a11, a12, a13, a14, a15, rfl⟩

theorem AddrBuf.ext_bytes {a b : AddrBuf} (h : a.bytes = b.bytes) : a = b := by
  cases a; cases b; cases h; rfl

theorem AddrBuf.setWord_zero_both (le : Bool) (buf : AddrBuf) :
    (buf.setWord le 0 0).setWord le 1 0 = AddrBuf.zero := by
  obtain ⟨a0, a1, a2, a3, a4, a5, a6, a7, a8, a9, a10, a11, a12, a13, a14, a15, h⟩ :=
    list_length_16 buf.bytes buf.size_eq
  apply AddrBuf.ext_bytes
  simp only [AddrBuf.setWord, AddrBuf.write, hostEncode_zero, h]
  rfl

theorem AddrBuf.write_zero_four (bs : List Byte) (h : bs.length = 4) :
    (AddrBuf.zero.write 0 bs).bytes = bs ++ List.replicate 12 0 := by
  match bs, h with
  | [b0, b1, b2, b3], _ => rfl

theorem AddrBuf.write_sixteen (buf : AddrBuf) (bs : List Byte) (h : bs.length = 16) :
    (buf.write 0 bs).bytes = bs := by
  simp [AddrBuf.write, h, buf.size_eq]

theorem probe_read_scalar_some (env : Env) (dst size src : Nat) (bs : List Byte)
    (h : env.read src size = some bs) :
    probe_read_scalar env dst size src = hostDecode env.littleEndian bs := by
  simp only [probe_read_scalar, h]

theorem probe_read_bytes_some (env : Env) (dst : AddrBuf) (size src : Nat) (bs : List Byte)
    (h : env.read src size = some bs) :
    probe_read_bytes env dst size src = dst.write 0 bs := by
  simp only [probe_read_bytes, h]

/-! ## Field by field description of set_event_from_sock -/

theorem sock_family_eq (env : Env) (event : sk_type) (sk : Nat) :
    (set_event_from_sock env event sk).tuple.family = sock_family env event sk := by
  simp only [set_event_from_sock, sock_family]
  split_ifs <;> rfl

theorem sock_saddr_eq (env : Env) (event : sk_type) (sk : Nat) :
    (set_event_from_sock env event sk).tuple.saddr =
      if sock_family env event sk = AF_INET then
        probe_read_bytes env AddrBuf.zero IPV4LEN (sk + env.sock.skc_rcv_saddr)
      else if sock_family env event sk = AF_INET6 then
        probe_read_bytes env AddrBuf.zero IPV6LEN (sk + env.sock.skc_v6_rcv_saddr)
      else AddrBuf.zero := by
  simp only [set_event_from_sock, sock_family, AddrBuf.setWord_zero_both]
  split_ifs <;> rfl

theorem sock_daddr_eq (env : Env) (event : sk_type) (sk : Nat) :
    (set_event_from_sock env event sk).tuple.daddr =
      if sock_family env event sk = AF_INET then
        probe_read_bytes env AddrBuf.zero IPV4LEN (sk + env.sock.skc_daddr)
      else if sock_family env event sk = AF_INET6 then
        probe_read_bytes env AddrBuf.zero IPV6LEN (sk + env.sock.skc_v6_daddr)
      else AddrBuf.zero := by
  simp only [set_event_from_sock, sock_family, AddrBuf.setWord_zero_both]
  split_ifs <;> rfl

theorem sock_protocol_eq (env : Env) (event : sk_type) (sk : Nat) :
    (set_event_from_sock env event sk).tuple.protocol =
      if env.sock.sk_protocol_size = 4 then
        (probe_read_scalar env event.tuple.protocol 2 (sk + env.sock.sk_protocol) >>> 8) % 2 ^ 16
      else probe_read_scalar env event.tuple.protocol 2 (sk + env.sock.sk_protocol) := by
  simp only [set_event_from_sock]
  split_ifs <;> rfl

theorem sock_sport_eq (env : Env) (event : sk_type) (sk : Nat) :
    (set_event_from_sock env event sk).tuple.sport =
      probe_read_scalar env event.tuple.sport 2 (sk + env.sock.skc_num) := by
  simp only [set_event_from_sock]
  split_ifs <;> rfl

theorem sock_dport_eq (env : Env) (event : sk_type) (sk : Nat) :
    (set_event_from_sock env event sk).tuple.dport =
      bpf_ntohs env.littleEndian
        (probe_read_scalar env event.tuple.dport 2 (sk + env.sock.skc_dport)) := by
  simp only [set_event_from_sock]
  split_ifs <;> rfl

/-! ## Field by field description of set_event_from_sockaddr -/

theorem sockaddr_family_eq (env : Env) (event : sk_type) (addr : Nat) :
    (set_event_from_sockaddr env event addr).tuple.family =
      if sockaddr_family env event addr = AF_INET then AF_INET
      else if sockaddr_family env event addr = AF_INET6 then AF_INET6
      else AF_UNSPEC := by
  simp only [set_event_from_sockaddr, sockaddr_family]
  split_ifs with h4 h6
  · exact h4
  · exact h6
  · rfl

theorem sockaddr_saddr_eq (env : Env) (event : sk_type) (addr : Nat) :
    (set_event_from_sockaddr env event addr).tuple.saddr =
      if sockaddr_family env event addr = AF_INET then
        probe_read_bytes env event.tuple.saddr IPV4LEN (addr + env.sa.sin_addr)
      else if sockaddr_family env event addr = AF_INET6 then
        probe_read_bytes env event.tuple.saddr IPV6LEN (addr + env.sa.sin6_addr)
      else AddrBuf.zero := by
  simp only [set_event_from_sockaddr, sockaddr_family, AddrBuf.setWord_zero_both]
  split_ifs <;> rfl

theorem sockaddr_daddr_eq (env : Env) (event : sk_type) (addr : Nat) :
    (set_event_from_sockaddr env event addr).tuple.daddr = AddrBuf.zero := by
  simp only [set_event_from_sockaddr, AddrBuf.setWord_zero_both]
  split_ifs <;> rfl

theorem sockaddr_sport_eq (env : Env) (event : sk_type) (addr : Nat) :
    (set_event_from_sockaddr env event addr).tuple.sport =
      if sockaddr_family env event addr = AF_INET then
        probe_read_scalar env event.tuple.sport 2 (addr + env.sa.sin_port)
      else if sockaddr_family env event addr = AF_INET6 then
        probe_read_scalar env event.tuple.sport 2 (addr + env.sa.sin6_port)
      else 0 := by
  simp only [set_event_from_sockaddr, sockaddr_family]
  split_ifs <;> rfl

theorem sockaddr_dport_eq (env : Env) (event : sk_type) (addr : Nat) :
    (set_event_from_sockaddr env event addr).tuple.dport = 0 := by
  simp only [set_event_from_sockaddr]
  split_ifs <;> rfl


/-! ## Unsupported address families -/

/-- C1: in set_event_from_sockaddr, whenever the family tag held in the record
after the family read is neither AF_INET nor AF_INET6, then for every prior
content of the record the resulting tuple has family AF_UNSPEC, both address
buffers all zero and both ports zero. -/
theorem sockaddr_unsupported_family (env : Env) (event : sk_type) (addr : Nat)
    (h4 : sockaddr_family env event addr ≠ AF_INET)
    (h6 : sockaddr_family env event addr ≠ AF_INET6) :
    (set_event_from_sockaddr env event addr).tuple.family = AF_UNSPEC ∧
    (set_event_from_sockaddr env event addr).tuple.saddr.bytes = List.replicate 16 0 ∧
    (set_event_from_sockaddr env event addr).tuple.daddr.bytes = List.replicate 16 0 ∧
    (set_event_from_sockaddr env event addr).tuple.sport = 0 ∧
    (set_event_from_sockaddr env event addr).tuple.dport = 0 := by
  refine ⟨?_, ?_, ?_, ?_, ?_⟩
  · rw [sockaddr_family_eq, if_neg h4, if_neg h6]
  · rw [sockaddr_saddr_eq, if_neg h4, if_neg h6]
    rfl
  · rw [sockaddr_daddr_eq]
    rfl
  · rw [sockaddr_sport_eq, if_neg h4, if_neg h6]
  · exact sockaddr_dport_eq env event addr

/-- Witness of C1: an AF_UNIX address structure and a poisoned record. -/
theorem sockaddr_unsupported_family_witness :
    sockaddr_family unixSockaddrEnv sk_type.poison 100 ≠ AF_INET ∧
    sockaddr_family unixSockaddrEnv sk_type.poison 100 ≠ AF_INET6 ∧
    (set_event_from_sockaddr unixSockaddrEnv sk_type.poison 100).tuple.family = AF_UNSPEC ∧
    (set_event_from_sockaddr unixSockaddrEnv sk_type.poison 100).tuple.saddr.bytes =
      List.replicate 16 0 ∧
    (set_event_from_sockaddr unixSockaddrEnv sk_type.poison 100).tuple.daddr.bytes =
      List.replicate 16 0 ∧
    (set_event_from_sockaddr unixSockaddrEnv sk_type.poison 100).tuple.sport = 0 ∧
    (set_event_from_sockaddr unixSockaddrEnv sk_type.poison 100).tuple.dport = 0 :=
  ⟨by decide, by decide,
    sockaddr_unsupported_family unixSockaddrEnv sk_type.poison 100 (by decide) (by decide)⟩

/-- C2, counterexample: an AF_UNIX socket (family field reading 1) with local
port 8080 and peer port 80, snapshot into a zeroed record. The family read
gives a value that is neither AF_INET nor AF_INET6, yet the output family is 1
and not AF_UNSPEC, the source port is 8080 and the destination port is 80. -/
theorem sock_unsupported_family_counterexample :
    unixSockEnv.read (4096 + 16) 2 = some [1, 0] ∧
    hostDecode true [1, 0] ≠ AF_INET ∧ hostDecode true [1, 0] ≠ AF_INET6 ∧
    (set_event_from_sock unixSockEnv sk_type.zero 4096).tuple.family = 1 ∧
    (set_event_from_sock unixSockEnv sk_type.zero 4096).tuple.family ≠ AF_UNSPEC ∧
    (set_event_from_sock unixSockEnv sk_type.zero 4096).tuple.sport = 8080 ∧
    (set_event_from_sock unixSockEnv sk_type.zero 4096).tuple.dport = 80 := by
  decide

/-- C2, amended: in set_event_from_sock, when the family field reads as a
value that is neither AF_INET nor AF_INET6, the output family is that value
and both address buffers are all zero, whatever the outcome of the other
reads; the ports are populated as for every family: when its read succeeds,
the source port is the raw value of the local-port field and the destination
port is the network-to-host conversion of the raw value of the peer-port
field. -/
theorem sock_unsupported_family (env : Env) (event : sk_type) (sk : Nat) (fb : List Byte)
    (hfam : env.read (sk + env.sock.skc_family) 2 = some fb)
    (h4 : hostDecode env.littleEndian fb ≠ AF_INET)
    (h6 : hostDecode env.littleEndian fb ≠ AF_INET6) :
    (set_event_from_sock env event sk).tuple.family = hostDecode env.littleEndian fb ∧
    (set_event_from_sock env event sk).tuple.saddr.bytes = List.replicate 16 0 ∧
    (set_event_from_sock env event sk).tuple.daddr.bytes = List.replicate 16 0 ∧
    (∀ nb : List Byte, env.read (sk + env.sock.skc_num) 2 = some nb →
      (set_event_from_sock env event sk).tuple.sport = hostDecode env.littleEndian nb) ∧
    (∀ pb : List Byte, env.read (sk + env.sock.skc_dport) 2 = some pb →
      (set_event_from_sock env event sk).tuple.dport =
        bpf_ntohs env.littleEndian (hostDecode env.littleEndian pb)) := by
  have hf : sock_family env event sk = hostDecode env.littleEndian fb :=
    probe_read_scalar_some env _ _ _ fb hfam
  refine ⟨?_, ?_, ?_, ?_, ?_⟩
  · rw [sock_family_eq, hf]
  · rw [sock_saddr_eq, hf, if_neg h4, if_neg h6]
    rfl
  · rw [sock_daddr_eq, hf, if_neg h4, if_neg h6]
    rfl
  · intro nb hnum
    rw [sock_sport_eq, probe_read_scalar_some env _ _ _ nb hnum]
  · intro pb hdport
    rw [sock_dport_eq, probe_read_scalar_some env _ _ _ pb hdport]

/-- Witness of the amended C2: the AF_UNIX socket of the counterexample and a
poisoned record. -/
theorem sock_unsupported_family_witness :
    (set_event_from_sock unixSockEnv sk_type.poison 4096).tuple.family = 1 ∧
    (set_event_from_sock unixSockEnv sk_type.poison 4096).tuple.saddr.bytes = List.replicate 16 0 ∧
    (set_event_from_sock unixSockEnv sk_type.poison 4096).tuple.daddr.bytes = List.replicate 16 0 ∧
    (set_event_from_sock unixSockEnv sk_type.poison 4096).tuple.sport = 8080 ∧
    (set_event_from_sock unixSockEnv sk_type.poison 4096).tuple.dport = 80 :=
  have h := sock_unsupported_family unixSockEnv sk_type.poison 4096 [1, 0]
    (by decide) (by decide) (by decide)
  ⟨h.1, h.2.1, h.2.2.1, h.2.2.2.1 [0x90, 0x1f] (by decide),
    h.2.2.2.2 [0x00, 0x50] (by decide)⟩

/-- C3: in set_event_from_sock, for every prior content of the record, when
the family held in the record after the family read is neither AF_INET nor
AF_INET6, both address buffers are all zero in the output. -/
theorem sock_addresses_zeroed (env : Env) (event : sk_type) (sk : Nat)
    (h4 : sock_family env event sk ≠ AF_INET)
    (h6 : sock_family env event sk ≠ AF_INET6) :
    (set_event_from_sock env event sk).tuple.saddr.bytes = List.replicate 16 0 ∧
    (set_event_from_sock env event sk).tuple.daddr.bytes = List.replicate 16 0 := by
  refine ⟨?_, ?_⟩
  · rw [sock_saddr_eq, if_neg h4, if_neg h6]
    rfl
  · rw [sock_daddr_eq, if_neg h4, if_neg h6]
    rfl

/-- Witness of C3: a socket whose memory is entirely unreadable and a poisoned
record, whose family 0xAAAA stays in place after the failed family read. -/
theorem sock_addresses_zeroed_witness :
    sock_family unreadableEnv sk_type.poison 4096 = 0xAAAA ∧
    (set_event_from_sock unreadableEnv sk_type.poison 4096).tuple.saddr.bytes = List.replicate 16 0 ∧
    (set_event_from_sock unreadableEnv sk_type.poison 4096).tuple.daddr.bytes = List.replicate 16 0 :=
  ⟨by decide, sock_addresses_zeroed unreadableEnv sk_type.poison 4096 (by decide) (by decide)⟩

/-! ## Protocol and ports of set_event_from_sock -/

/-- C4: in set_event_from_sock, when the protocol read succeeds with the raw
16-bit value v, the output protocol is v shifted right by 8 bits (once) if
the storage size of sk_protocol is 4 bytes, and v itself otherwise. -/
theorem sock_protocol_width (env : Env) (event : sk_type) (sk : Nat) (bs : List Byte)
    (h : env.read (sk + env.sock.sk_protocol) 2 = some bs) :
    (set_event_from_sock env event sk).tuple.protocol =
      if env.sock.sk_protocol_size = 4 then hostDecode env.littleEndian bs >>> 8
      else hostDecode env.littleEndian bs := by
  have hv : hostDecode env.littleEndian bs < 65536 := by
    have hlt := hostDecode_lt env.littleEndian bs
    rw [Env.read_length env 2 _ bs h] at hlt
    exact hlt
  rw [sock_protocol_eq, probe_read_scalar_some env _ _ _ bs h]
  split
  · rw [Nat.shiftRight_eq_div_pow]
    apply Nat.mod_eq_of_lt
    have hle : hostDecode env.littleEndian bs / 2 ^ 8 ≤ hostDecode env.littleEndian bs :=
      Nat.div_le_self _ _
    omega
  · rfl

/-- Witness of C4: with a 4-byte sk_protocol and the raw value 0x0600 the
protocol is 6; with the native width and the raw value 6 it is 6. -/
theorem sock_protocol_width_witness :
    (oldKernelSockEnv.sock.sk_protocol_size = 4 ∧
      hostDecode oldKernelSockEnv.littleEndian [0x00, 0x06] = 0x0600 ∧
      (set_event_from_sock oldKernelSockEnv sk_type.poison 4096).tuple.protocol = 6) ∧
    (inetSockEnv.sock.sk_protocol_size = 2 ∧
      hostDecode inetSockEnv.littleEndian [6, 0] = 6 ∧
      (set_event_from_sock inetSockEnv sk_type.poison 4096).tuple.protocol = 6) :=
  ⟨⟨by decide, by decide,
      (sock_protocol_width oldKernelSockEnv sk_type.poison 4096 [0x00, 0x06]
        (by decide)).trans (by decide)⟩,
    ⟨by decide, by decide,
      (sock_protocol_width inetSockEnv sk_type.poison 4096 [6, 0]
        (by decide)).trans (by decide)⟩⟩

/-- C5: in set_event_from_sock, when the two port reads succeed, the source
port is the raw value of the local-port field, with no conversion, and the
destination port is bpf_ntohs of the raw value of the peer-port field; peer
port bytes 0x00, 0x50 give destination port 80 whatever the family and the
byte order of the target. -/
theorem sock_ports (env : Env) (event : sk_type) (sk : Nat) (nb pb : List Byte)
    (hnum : env.read (sk + env.sock.skc_num) 2 = some nb)
    (hdport : env.read (sk + env.sock.skc_dport) 2 = some pb) :
    (set_event_from_sock env event sk).tuple.sport = hostDecode env.littleEndian nb ∧
    (set_event_from_sock env event sk).tuple.dport =
      bpf_ntohs env.littleEndian (hostDecode env.littleEndian pb) ∧
    (pb = [0x00, 0x50] → (set_event_from_sock env event sk).tuple.dport = 80) := by
  have hd : (set_event_from_sock env event sk).tuple.dport =
      bpf_ntohs env.littleEndian (hostDecode env.littleEndian pb) := by
    rw [sock_dport_eq, probe_read_scalar_some env _ _ _ pb hdport]
  refine ⟨?_, hd, ?_⟩
  · rw [sock_sport_eq, probe_read_scalar_some env _ _ _ nb hnum]
  · intro hpb
    rw [hd, hpb]
    cases env.littleEndian <;> decide

/-- Witness of C5: the AF_INET6 socket on the little-endian target, whose
local-port field holds the bytes 0x90, 0x1f (value 0x1f90 = 8080) and whose
peer-port field holds 0x00, 0x50. -/
theorem sock_ports_witness :
    (set_event_from_sock inet6SockEnv sk_type.poison 4096).tuple.sport = 0x1f90 ∧
    (set_event_from_sock inet6SockEnv sk_type.poison 4096).tuple.dport =
      bpf_ntohs true 0x5000 ∧
    (set_event_from_sock inet6SockEnv sk_type.poison 4096).tuple.dport = 80 :=
  have h := sock_ports inet6SockEnv sk_type.poison 4096 [0x90, 0x1f] [0x00, 0x50]
    (by decide) (by decide)
  ⟨h.1, h.2.1, h.2.2 rfl⟩

/-! ## Addresses of set_event_from_sock -/

/-- C6: in set_event_from_sock, for every prior content of the record, when
the family reads as AF_INET and the two 4-byte address reads succeed, the
source address buffer is the 4 bytes of the receive address followed by 12
zero bytes and the destination address buffer is the 4 bytes of the peer
address followed by 12 zero bytes. -/
theorem sock_ipv4_addresses (env : Env) (event : sk_type) (sk : Nat)
    (fb sb db : List Byte)
    (hfam : env.read (sk + env.sock.skc_family) 2 = some fb)
    (h4 : hostDecode env.littleEndian fb = AF_INET)
    (hs : env.read (sk + env.sock.skc_rcv_saddr) 4 = some sb)
    (hd : env.read (sk + env.sock.skc_daddr) 4 = some db) :
    (set_event_from_sock env event sk).tuple.saddr.bytes = sb ++ List.replicate 12 0 ∧
    (set_event_from_sock env event sk).tuple.daddr.bytes = db ++ List.replicate 12 0 := by
  have hf : sock_family env event sk = AF_INET := by
    rw [sock_family, probe_read_scalar_some env _ _ _ fb hfam, h4]
  refine ⟨?_, ?_⟩
  · rw [sock_saddr_eq, if_pos hf, probe_read_bytes_some env _ _ _ sb hs]
    exact AddrBuf.write_zero_four sb (Env.read_length env 4 _ sb hs)
  · rw [sock_daddr_eq, if_pos hf, probe_read_bytes_some env _ _ _ db hd]
    exact AddrBuf.write_zero_four db (Env.read_length env 4 _ db hd)

/-- Witness of C6: receive address 192.0.2.1 and peer address 203.0.113.5,
snapshot into a poisoned record. -/
theorem sock_ipv4_addresses_witness :
    (set_event_from_sock inetSockEnv sk_type.poison 4096).tuple.saddr.bytes =
      [192, 0, 2, 1, 0, 0, 0, 0, 0, 0, 0, 0, 0, 0, 0, 0] ∧
    (set_event_from_sock inetSockEnv sk_type.poison 4096).tuple.daddr.bytes =
      [203, 0, 113, 5, 0, 0, 0, 0, 0, 0, 0, 0, 0, 0, 0, 0] :=
  sock_ipv4_addresses inetSockEnv sk_type.poison 4096 [2, 0] [192, 0, 2, 1] [203, 0, 113, 5]
    (by decide) (by decide) (by decide) (by decide)

/-- C7: in set_event_from_sock, for every prior content of the record, when
the family reads as AF_INET6 and the two 16-byte address reads succeed, the
source address buffer is exactly the 16 bytes of the IPv6 receive address
and the destination address buffer exactly the 16 bytes of the IPv6 peer
address. -/
theorem sock_ipv6_addresses (env : Env) (event : sk_type) (sk : Nat)
    (fb sb db : List Byte)
    (hfam : env.read (sk + env.sock.skc_family) 2 = some fb)
    (h6 : hostDecode env.littleEndian fb = AF_INET6)
    (hs : env.read (sk + env.sock.skc_v6_rcv_saddr) 16 = some sb)
    (hd : env.read (sk + env.sock.skc_v6_daddr) 16 = some db) :
    (set_event_from_sock env event sk).tuple.saddr.bytes = sb ∧
    (set_event_from_sock env event sk).tuple.daddr.bytes = db := by
  have hf : sock_family env event sk = AF_INET6 := by
    rw [sock_family, probe_read_scalar_some env _ _ _ fb hfam, h6]
  have hne : sock_family env event sk ≠ AF_INET := by
    rw [hf]
    decide
  refine ⟨?_, ?_⟩
  · rw [sock_saddr_eq, if_neg hne, if_pos hf, probe_read_bytes_some env _ _ _ sb hs]
    exact AddrBuf.write_sixteen _ sb (Env.read_length env 16 _ sb hs)
  · rw [sock_daddr_eq, if_neg hne, if_pos hf, probe_read_bytes_some env _ _ _ db hd]
    exact AddrBuf.write_sixteen _ db (Env.read_length env 16 _ db hd)

/-- Witness of C7: receive address 2001:db8::1 and peer address 2001:db8::2,
snapshot into a poisoned record. -/
theorem sock_ipv6_addresses_witness :
    (set_event_from_sock inet6SockEnv sk_type.poison 4096).tuple.saddr.bytes =
      [0x20, 0x01, 0x0d, 0xb8, 0, 0, 0, 0, 0, 0, 0, 0, 0, 0, 0, 1] ∧
    (set_event_from_sock inet6SockEnv sk_type.poison 4096).tuple.daddr.bytes =
      [0x20, 0x01, 0x0d, 0xb8, 0, 0, 0, 0, 0, 0, 0, 0, 0, 0, 0, 2] :=
  sock_ipv6_addresses inet6SockEnv sk_type.poison 4096 [10, 0]
    [0x20, 0x01, 0x0d, 0xb8, 0, 0, 0, 0, 0, 0, 0, 0, 0, 0, 0, 1]
    [0x20, 0x01, 0x0d, 0xb8, 0, 0, 0, 0, 0, 0, 0, 0, 0, 0, 0, 2]
    (by decide) (by decide) (by decide) (by decide)

/-! ## The tuple of set_event_from_sockaddr -/

/-- C8: in set_event_from_sockaddr, for an address structure whose family
tag reads as AF_INET (respectively AF_INET6) and whose port read succeeds,
the source port is the raw 16-bit value of the sin_port (respectively
sin6_port) field, with no byte-order conversion. -/
theorem sockaddr_source_port (env : Env) (event : sk_type) (addr : Nat) (fb pb : List Byte)
    (hfam : env.read (addr + env.sa.sa_family) 2 = some fb) :
    (hostDecode env.littleEndian fb = AF_INET →
      env.read (addr + env.sa.sin_port) 2 = some pb →
      (set_event_from_sockaddr env event addr).tuple.sport =
        hostDecode env.littleEndian pb) ∧
    (hostDecode env.littleEndian fb = AF_INET6 →
      env.read (addr + env.sa.sin6_port) 2 = some pb →
      (set_event_from_sockaddr env event addr).tuple.sport =
        hostDecode env.littleEndian pb) := by
  have hf : sockaddr_family env event addr = hostDecode env.littleEndian fb :=
    probe_read_scalar_some env _ _ _ fb hfam
  refine ⟨?_, ?_⟩
  · intro h4 hp
    rw [sockaddr_sport_eq, hf, if_pos h4, probe_read_scalar_some env _ _ _ pb hp]
  · intro h6 hp
    have hne : hostDecode env.littleEndian fb ≠ AF_INET := by
      rw [h6]
      decide
    rw [sockaddr_sport_eq, hf, if_neg hne, if_pos h6,
      probe_read_scalar_some env _ _ _ pb hp]

/-- Witness of C8: a sockaddr_in and a sockaddr_in6 whose port field holds
the value 0x0050 give source port 0x0050. -/
theorem sockaddr_source_port_witness :
    (hostDecode inetSockaddrEnv.littleEndian [0x50, 0x00] = 0x0050 ∧
      (set_event_from_sockaddr inetSockaddrEnv sk_type.poison 100).tuple.sport = 0x0050) ∧
    (hostDecode inet6SockaddrEnv.littleEndian [0x50, 0x00] = 0x0050 ∧
      (set_event_from_sockaddr inet6SockaddrEnv sk_type.poison 100).tuple.sport = 0x0050) :=
  ⟨⟨by decide,
      ((sockaddr_source_port inetSockaddrEnv sk_type.poison 100 [2, 0] [0x50, 0x00]
        (by decide)).1 (by decide) (by decide)).trans (by decide)⟩,
    ⟨by decide,
      ((sockaddr_source_port inet6SockaddrEnv sk_type.poison 100 [10, 0] [0x50, 0x00]
        (by decide)).2 (by decide) (by decide)).trans (by decide)⟩⟩

/-- C9: set_event_from_sockaddr on a zero-initialised record: when the family
tag reads as AF_INET and the 4-byte address read succeeds, the source
address buffer is the 4 bytes of sin_addr followed by 12 zero bytes; when it
reads as AF_INET6 and the 16-byte address read succeeds, the source address
buffer is exactly the 16 bytes of sin6_addr; in both cases the output family
is the family tag read. -/
theorem sockaddr_source_address (env : Env) (addr : Nat) (fb ab : List Byte)
    (hfam : env.read (addr + env.sa.sa_family) 2 = some fb) :
    (hostDecode env.littleEndian fb = AF_INET →
      env.read (addr + env.sa.sin_addr) 4 = some ab →
      (set_event_from_sockaddr env sk_type.zero addr).tuple.saddr.bytes =
        ab ++ List.replicate 12 0 ∧
      (set_event_from_sockaddr env sk_type.zero addr).tuple.family =
        hostDecode env.littleEndian fb) ∧
    (hostDecode env.littleEndian fb = AF_INET6 →
      env.read (addr + env.sa.sin6_addr) 16 = some ab →
      (set_event_from_sockaddr env sk_type.zero addr).tuple.saddr.bytes = ab ∧
      (set_event_from_sockaddr env sk_type.zero addr).tuple.family =
        hostDecode env.littleEndian fb) := by
  have hf : sockaddr_family env sk_type.zero addr = hostDecode env.littleEndian fb :=
    probe_read_scalar_some env _ _ _ fb hfam
  refine ⟨?_, ?_⟩
  · intro h4 ha
    refine ⟨?_, ?_⟩
    · rw [sockaddr_saddr_eq, hf, if_pos h4, probe_read_bytes_some env _ _ _ ab ha]
      exact AddrBuf.write_zero_four ab (Env.read_length env 4 _ ab ha)
    · rw [sockaddr_family_eq, hf, if_pos h4, h4]
  · intro h6 ha
    have hne : hostDecode env.littleEndian fb ≠ AF_INET := by
      rw [h6]
      decide
    refine ⟨?_, ?_⟩
    · rw [sockaddr_saddr_eq, hf, if_neg hne, if_pos h6,
        probe_read_bytes_some env _ _ _ ab ha]
      exact AddrBuf.write_sixteen _ ab (Env.read_length env 16 _ ab ha)
    · rw [sockaddr_family_eq, hf, if_neg hne, if_pos h6, h6]

/-- Witness of C9: the sockaddr_in with address 10.0.0.1 and the sockaddr_in6
with address 2001:db8::1, each snapshot into a zeroed record. -/
theorem sockaddr_source_address_witness :
    ((set_event_from_sockaddr inetSockaddrEnv sk_type.zero 100).tuple.saddr.bytes =
        [10, 0, 0, 1, 0, 0, 0, 0, 0, 0, 0, 0, 0, 0, 0, 0] ∧
      (set_event_from_sockaddr inetSockaddrEnv sk_type.zero 100).tuple.family = AF_INET) ∧
    ((set_event_from_sockaddr inet6SockaddrEnv sk_type.zero 100).tuple.saddr.bytes =
        [0x20, 0x01, 0x0d, 0xb8, 0, 0, 0, 0, 0, 0, 0, 0, 0, 0, 0, 1] ∧
      (set_event_from_sockaddr inet6SockaddrEnv sk_type.zero 100).tuple.family = AF_INET6) :=
  ⟨(sockaddr_source_address inetSockaddrEnv 100 [2, 0] [10, 0, 0, 1]
      (by decide)).1 (by decide) (by decide),
    (sockaddr_source_address inet6SockaddrEnv 100 [10, 0]
      [0x20, 0x01, 0x0d, 0xb8, 0, 0, 0, 0, 0, 0, 0, 0, 0, 0, 0, 1]
      (by decide)).2 (by decide) (by decide)⟩

/-- C10: set_event_from_sockaddr leaves, for every address structure, every
outcome of its reads and every prior content of the record, the destination
address buffer all zero and the destination port zero. -/
theorem sockaddr_dest_zero (env : Env) (event : sk_type) (addr : Nat) :
    (set_event_from_sockaddr env event addr).tuple.daddr.bytes = List.replicate 16 0 ∧
    (set_event_from_sockaddr env event addr).tuple.dport = 0 := by
  refine ⟨?_, sockaddr_dport_eq env event addr⟩
  rw [sockaddr_daddr_eq]
  rfl

/-! ## Further lemmas on reads, buffers and records -/

theorem probe_read_scalar_none (env : Env) (dst size src : Nat)
    (h : env.read src size = none) : probe_read_scalar env dst size src = dst := by
  simp only [probe_read_scalar, h]

theorem probe_read_bytes_none (env : Env) (dst : AddrBuf) (size src : Nat)
    (h : env.read src size = none) : probe_read_bytes env dst size src = dst := by
  simp only [probe_read_bytes, h]

theorem probe_read_scalar_prior (env : Env) (d1 d2 size src : Nat)
    (h : env.read src size = none → d1 = d2) :
    probe_read_scalar env d1 size src = probe_read_scalar env d2 size src := by
  cases hr : env.read src size with
  | none => rw [probe_read_scalar_none env d1 _ _ hr, probe_read_scalar_none env d2 _ _ hr, h hr]
  | some bs => rw [probe_read_scalar_some env d1 _ _ bs hr, probe_read_scalar_some env d2 _ _ bs hr]

theorem AddrBuf.write_four (buf : AddrBuf) (bs : List Byte) (h : bs.length = 4) :
    (buf.write 0 bs).bytes = bs ++ buf.bytes.drop 4 := by
  obtain ⟨a0, a1, a2, a3, a4, a5, a6, a7, a8, a9, a10, a11, a12, a13, a14, a15, hb⟩ :=
    list_length_16 buf.bytes buf.size_eq
  match bs, h with
  | [b0, b1, b2, b3], _ =>
    simp only [AddrBuf.write, hb]
    rfl

theorem AddrBuf.write_write (buf : AddrBuf) (bs : List Byte) (h : bs.length ≤ 16) :
    (buf.write 0 bs).write 0 bs = buf.write 0 bs := by
  apply AddrBuf.ext_bytes
  have hb := buf.size_eq
  simp only [AddrBuf.write, List.take_zero, List.nil_append, Nat.zero_add]
  have h1 : (bs ++ List.drop bs.length buf.bytes).length = 16 := by
    simp only [List.length_append, List.length_drop, hb]
    omega
  rw [List.take_of_length_le (le_of_eq h1), List.drop_append_of_le_length (le_refl _),
    List.drop_length, List.nil_append]
  exact List.take_of_length_le (le_of_eq h1)

theorem tuple_type.ext_tuple_fields {a b : tuple_type} (h1 : a.saddr = b.saddr)
    (h2 : a.daddr = b.daddr) (h3 : a.sport = b.sport) (h4 : a.dport = b.dport)
    (h5 : a.protocol = b.protocol) (h6 : a.family = b.family) : a = b := by
  cases a
  cases b
  simp only [tuple_type.mk.injEq]
  exact ⟨h1, h2, h3, h4, h5, h6⟩

theorem sk_type.ext_record_fields {a b : sk_type} (h1 : a.tuple = b.tuple)
    (h2 : a.sockaddr = b.sockaddr) (h3 : a.mark = b.mark) (h4 : a.priority = b.priority)
    (h5 : a.type = b.type) (h6 : a.state = b.state) (h7 : a.pad = b.pad) : a = b := by
  cases a
  cases b
  simp only [sk_type.mk.injEq]
  exact ⟨h1, h2, h3, h4, h5, h6, h7⟩

theorem sock_sockaddr_eq (env : Env) (event : sk_type) (sk : Nat) :
    (set_event_from_sock env event sk).sockaddr = sk % 2 ^ 64 := by
  simp only [set_event_from_sock]
  split_ifs <;> rfl

theorem sock_state_eq (env : Env) (event : sk_type) (sk : Nat) :
    (set_event_from_sock env event sk).state =
      probe_read_scalar env event.state 1 (sk + env.sock.skc_state) := by
  simp only [set_event_from_sock]
  split_ifs <;> rfl

theorem sock_type_eq (env : Env) (event : sk_type) (sk : Nat) :
    (set_event_from_sock env event sk).type =
      probe_read_scalar env event.type 2 (sk + env.sock.sk_type) := by
  simp only [set_event_from_sock]
  split_ifs <;> rfl

theorem sock_mark_eq (env : Env) (event : sk_type) (sk : Nat) :
    (set_event_from_sock env event sk).mark =
      probe_read_scalar env event.mark 4 (sk + env.sock.sk_mark) := by
  simp only [set_event_from_sock]
  split_ifs <;> rfl

theorem sock_priority_eq (env : Env) (event : sk_type) (sk : Nat) :
    (set_event_from_sock env event sk).priority =
      probe_read_scalar env event.priority 4 (sk + env.sock.sk_priority) := by
  simp only [set_event_from_sock]
  split_ifs <;> rfl

theorem sock_pad_eq (env : Env) (event : sk_type) (sk : Nat) :
    (set_event_from_sock env event sk).pad = event.pad := by
  simp only [set_event_from_sock]
  split_ifs <;> rfl

theorem sockaddr_protocol_eq (env : Env) (event : sk_type) (addr : Nat) :
    (set_event_from_sockaddr env event addr).tuple.protocol = event.tuple.protocol := by
  simp only [set_event_from_sockaddr]
  split_ifs <;> rfl

theorem sockaddr_rest_eq (env : Env) (event : sk_type) (addr : Nat) :
    (set_event_from_sockaddr env event addr).sockaddr = event.sockaddr ∧
    (set_event_from_sockaddr env event addr).mark = event.mark ∧
    (set_event_from_sockaddr env event addr).priority = event.priority ∧
    (set_event_from_sockaddr env event addr).type = event.type ∧
    (set_event_from_sockaddr env event addr).state = event.state ∧
    (set_event_from_sockaddr env event addr).pad = event.pad := by
  simp only [set_event_from_sockaddr]
  split_ifs <;> exact ⟨rfl, rfl, rfl, rfl, rfl, rfl⟩

/-! ## Frame and family range of set_event_from_sockaddr -/

/-- C11: set_event_from_sockaddr writes tuple fields only: for every input and
every prior record, the fields mark, priority, state and type and the raw
handle sockaddr (and the pad bytes) are the same before and after the
call. -/
theorem sockaddr_frame (env : Env) (event : sk_type) (addr : Nat) :
    (set_event_from_sockaddr env event addr).mark = event.mark ∧
    (set_event_from_sockaddr env event addr).priority = event.priority ∧
    (set_event_from_sockaddr env event addr).state = event.state ∧
    (set_event_from_sockaddr env event addr).type = event.type ∧
    (set_event_from_sockaddr env event addr).sockaddr = event.sockaddr ∧
    (set_event_from_sockaddr env event addr).pad = event.pad ∧
    set_event_from_sockaddr env event addr =
      { event with tuple := (set_event_from_sockaddr env event addr).tuple } := by
  obtain ⟨h1, h2, h3, h4, h5, h6⟩ := sockaddr_rest_eq env event addr
  exact ⟨h2, h3, h5, h4, h1, h6, sk_type.ext_record_fields rfl h1 h2 h3 h4 h5 h6⟩

/-- C18: the family that set_event_from_sockaddr leaves in the record is
AF_UNSPEC, AF_INET or AF_INET6, for every address structure, every outcome
of the reads and every prior record. -/
theorem sockaddr_family_range (env : Env) (event : sk_type) (addr : Nat) :
    (set_event_from_sockaddr env event addr).tuple.family = AF_UNSPEC ∨
    (set_event_from_sockaddr env event addr).tuple.family = AF_INET ∨
    (set_event_from_sockaddr env event addr).tuple.family = AF_INET6 := by
  rw [sockaddr_family_eq]
  split_ifs
  · exact Or.inr (Or.inl rfl)
  · exact Or.inr (Or.inr rfl)
  · exact Or.inl rfl

/-! ## Failed reads in set_event_from_sock -/

/-- C12: set_event_from_sock on a zero-initialised record: every field whose
read fails is zero in the output, whichever other reads fail: the family
(and then both address buffers), state, type, protocol (also under the
shift of the 4-byte width), mark, priority, each address buffer whose read
fails, the source port and the destination port (after the byte-order
conversion). The raw handle is the numeric value of the socket pointer, and
when all the reads fail the output is the zero record but for the raw
handle. -/
theorem sock_failure_absorbed (env : Env) (sk : Nat) (out : sk_type) (hsk : sk < 2 ^ 64)
    (hout : out = set_event_from_sock env sk_type.zero sk) :
    out.sockaddr = sk ∧
    (env.read (sk + env.sock.skc_family) 2 = none →
      out.tuple.family = 0 ∧ out.tuple.saddr.bytes = List.replicate 16 0 ∧
      out.tuple.daddr.bytes = List.replicate 16 0) ∧
    (env.read (sk + env.sock.skc_state) 1 = none → out.state = 0) ∧
    (env.read (sk + env.sock.sk_type) 2 = none → out.type = 0) ∧
    (env.read (sk + env.sock.sk_protocol) 2 = none → out.tuple.protocol = 0) ∧
    (env.read (sk + env.sock.sk_mark) 4 = none → out.mark = 0) ∧
    (env.read (sk + env.sock.sk_priority) 4 = none → out.priority = 0) ∧
    (out.tuple.family = AF_INET → env.read (sk + env.sock.skc_rcv_saddr) IPV4LEN = none →
      out.tuple.saddr.bytes = List.replicate 16 0) ∧
    (out.tuple.family = AF_INET → env.read (sk + env.sock.skc_daddr) IPV4LEN = none →
      out.tuple.daddr.bytes = List.replicate 16 0) ∧
    (out.tuple.family = AF_INET6 → env.read (sk + env.sock.skc_v6_rcv_saddr) IPV6LEN = none →
      out.tuple.saddr.bytes = List.replicate 16 0) ∧
    (out.tuple.family = AF_INET6 → env.read (sk + env.sock.skc_v6_daddr) IPV6LEN = none →
      out.tuple.daddr.bytes = List.replicate 16 0) ∧
    (env.read (sk + env.sock.skc_num) 2 = none → out.tuple.sport = 0) ∧
    (env.read (sk + env.sock.skc_dport) 2 = none → out.tuple.dport = 0) ∧
    (env.read (sk + env.sock.skc_family) 2 = none →
      env.read (sk + env.sock.skc_state) 1 = none →
      env.read (sk + env.sock.sk_type) 2 = none →
      env.read (sk + env.sock.sk_protocol) 2 = none →
      env.read (sk + env.sock.sk_mark) 4 = none →
      env.read (sk + env.sock.sk_priority) 4 = none →
      env.read (sk + env.sock.skc_num) 2 = none →
      env.read (sk + env.sock.skc_dport) 2 = none →
      out = { sk_type.zero with sockaddr := sk }) := by
  subst hout
  have hhandle : (set_event_from_sock env sk_type.zero sk).sockaddr = sk := by
    rw [sock_sockaddr_eq]
    exact Nat.mod_eq_of_lt hsk
  have hfamily : env.read (sk + env.sock.skc_family) 2 = none →
      (set_event_from_sock env sk_type.zero sk).tuple.family = 0 ∧
      (set_event_from_sock env sk_type.zero sk).tuple.saddr = AddrBuf.zero ∧
      (set_event_from_sock env sk_type.zero sk).tuple.daddr = AddrBuf.zero := by
    intro h
    have hf : sock_family env sk_type.zero sk = 0 := probe_read_scalar_none env _ _ _ h
    refine ⟨?_, ?_, ?_⟩
    · rw [sock_family_eq, hf]
    · rw [sock_saddr_eq, hf]
      rfl
    · rw [sock_daddr_eq, hf]
      rfl
  have hprotocol : env.read (sk + env.sock.sk_protocol) 2 = none →
      (set_event_from_sock env sk_type.zero sk).tuple.protocol = 0 := by
    intro h
    rw [sock_protocol_eq, probe_read_scalar_none env _ _ _ h]
    split <;> rfl
  have hsport : env.read (sk + env.sock.skc_num) 2 = none →
      (set_event_from_sock env sk_type.zero sk).tuple.sport = 0 := by
    intro h
    rw [sock_sport_eq, probe_read_scalar_none env _ _ _ h]
    rfl
  have hdport : env.read (sk + env.sock.skc_dport) 2 = none →
      (set_event_from_sock env sk_type.zero sk).tuple.dport = 0 := by
    intro h
    rw [sock_dport_eq, probe_read_scalar_none env _ _ _ h]
    cases env.littleEndian <;> rfl
  have hstate : env.read (sk + env.sock.skc_state) 1 = none →
      (set_event_from_sock env sk_type.zero sk).state = 0 := by
    intro h
    rw [sock_state_eq, probe_read_scalar_none env _ _ _ h]
    rfl
  have htype : env.read (sk + env.sock.sk_type) 2 = none →
      (set_event_from_sock env sk_type.zero sk).type = 0 := by
    intro h
    rw [sock_type_eq, probe_read_scalar_none env _ _ _ h]
    rfl
  have hmark : env.read (sk + env.sock.sk_mark) 4 = none →
      (set_event_from_sock env sk_type.zero sk).mark = 0 := by
    intro h
    rw [sock_mark_eq, probe_read_scalar_none env _ _ _ h]
    rfl
  have hpriority : env.read (sk + env.sock.sk_priority) 4 = none →
      (set_event_from_sock env sk_type.zero sk).priority = 0 := by
    intro h
    rw [sock_priority_eq, probe_read_scalar_none env _ _ _ h]
    rfl
  refine ⟨hhandle, ?_, hstate, htype, hprotocol, hmark, hpriority, ?_, ?_, ?_, ?_,
    hsport, hdport, ?_⟩
  · intro h
    obtain ⟨h1, h2, h3⟩ := hfamily h
    rw [h1, h2, h3]
    exact ⟨rfl, rfl, rfl⟩
  · intro hf h
    rw [sock_family_eq] at hf
    rw [sock_saddr_eq, if_pos hf, probe_read_bytes_none env _ _ _ h]
    rfl
  · intro hf h
    rw [sock_family_eq] at hf
    rw [sock_daddr_eq, if_pos hf, probe_read_bytes_none env _ _ _ h]
    rfl
  · intro hf h
    rw [sock_family_eq] at hf
    have hne : sock_family env sk_type.zero sk ≠ AF_INET := by
      rw [hf]
      decide
    rw [sock_saddr_eq, if_neg hne, if_pos hf, probe_read_bytes_none env _ _ _ h]
    rfl
  · intro hf h
    rw [sock_family_eq] at hf
    have hne : sock_family env sk_type.zero sk ≠ AF_INET := by
      rw [hf]
      decide
    rw [sock_daddr_eq, if_neg hne, if_pos hf, probe_read_bytes_none env _ _ _ h]
    rfl
  · intro h1 h2 h3 h4 h5 h6 h7 h8
    obtain ⟨hf1, hf2, hf3⟩ := hfamily h1
    exact sk_type.ext_record_fields
      (tuple_type.ext_tuple_fields hf2 hf3 (hsport h7) (hdport h8) (hprotocol h4) hf1)
      hhandle (hmark h5) (hpriority h6) (htype h3) (hstate h2) (sock_pad_eq env _ sk)

/-- Witness of C12: on the target with a 4-byte sk_protocol where no address
is readable, the snapshot of the socket at 4096 into the zero record is the
zero record with raw handle 4096. -/
theorem sock_failure_absorbed_witness :
    set_event_from_sock oldKernelUnreadableEnv sk_type.zero 4096 =
      { sk_type.zero with sockaddr := 4096 } :=
  (sock_failure_absorbed oldKernelUnreadableEnv 4096
    (set_event_from_sock oldKernelUnreadableEnv sk_type.zero 4096) (by decide)
    rfl).2.2.2.2.2.2.2.2.2.2.2.2.2
    (by decide) (by decide) (by decide) (by decide) (by decide) (by decide) (by decide)
    (by decide)

/-! ## Dependence of set_event_from_sock on the prior record -/

theorem sock_named_fields_prior (env : Env) (d1 d2 : sk_type) (sk : Nat)
    (hfamily : env.read (sk + env.sock.skc_family) 2 = none →
      d1.tuple.family = d2.tuple.family)
    (hstate : env.read (sk + env.sock.skc_state) 1 = none → d1.state = d2.state)
    (htype : env.read (sk + env.sock.sk_type) 2 = none → d1.type = d2.type)
    (hprotocol : env.read (sk + env.sock.sk_protocol) 2 = none →
      d1.tuple.protocol = d2.tuple.protocol)
    (hmark : env.read (sk + env.sock.sk_mark) 4 = none → d1.mark = d2.mark)
    (hpriority : env.read (sk + env.sock.sk_priority) 4 = none → d1.priority = d2.priority)
    (hsport : env.read (sk + env.sock.skc_num) 2 = none → d1.tuple.sport = d2.tuple.sport)
    (hdport : env.read (sk + env.sock.skc_dport) 2 = none →
      d1.tuple.dport = d2.tuple.dport) :
    (set_event_from_sock env d1 sk).tuple = (set_event_from_sock env d2 sk).tuple ∧
    (set_event_from_sock env d1 sk).sockaddr = (set_event_from_sock env d2 sk).sockaddr ∧
    (set_event_from_sock env d1 sk).mark = (set_event_from_sock env d2 sk).mark ∧
    (set_event_from_sock env d1 sk).priority = (set_event_from_sock env d2 sk).priority ∧
    (set_event_from_sock env d1 sk).type = (set_event_from_sock env d2 sk).type ∧
    (set_event_from_sock env d1 sk).state = (set_event_from_sock env d2 sk).state := by
  have hf : sock_family env d1 sk = sock_family env d2 sk :=
    probe_read_scalar_prior env _ _ _ _ hfamily
  refine ⟨tuple_type.ext_tuple_fields ?_ ?_ ?_ ?_ ?_ ?_, ?_, ?_, ?_, ?_, ?_⟩
  · rw [sock_saddr_eq, sock_saddr_eq, hf]
  · rw [sock_daddr_eq, sock_daddr_eq, hf]
  · rw [sock_sport_eq, sock_sport_eq, probe_read_scalar_prior env _ _ _ _ hsport]
  · rw [sock_dport_eq, sock_dport_eq, probe_read_scalar_prior env _ _ _ _ hdport]
  · rw [sock_protocol_eq, sock_protocol_eq, probe_read_scalar_prior env _ _ _ _ hprotocol]
  · rw [sock_family_eq, sock_family_eq, hf]
  · rw [sock_sockaddr_eq, sock_sockaddr_eq]
  · rw [sock_mark_eq, sock_mark_eq, probe_read_scalar_prior env _ _ _ _ hmark]
  · rw [sock_priority_eq, sock_priority_eq, probe_read_scalar_prior env _ _ _ _ hpriority]
  · rw [sock_type_eq, sock_type_eq, probe_read_scalar_prior env _ _ _ _ htype]
  · rw [sock_state_eq, sock_state_eq, probe_read_scalar_prior env _ _ _ _ hstate]

/-- C13, counterexample: the snapshot of a socket whose memory is unreadable
into the poisoned record differs from its snapshot into the zero record and
keeps the poisoned family, protocol, ports, state, type, mark and priority;
and the snapshot of a fully readable AF_INET socket into the poisoned record
differs from its snapshot into the zero record, as it keeps the poisoned pad
bytes. -/
theorem sock_prior_content_counterexample :
    set_event_from_sock unreadableEnv sk_type.poison 4096 ≠
      set_event_from_sock unreadableEnv sk_type.zero 4096 ∧
    (set_event_from_sock unreadableEnv sk_type.poison 4096).tuple.family = 0xAAAA ∧
    (set_event_from_sock unreadableEnv sk_type.poison 4096).tuple.protocol = 0xAAAA ∧
    (set_event_from_sock unreadableEnv sk_type.poison 4096).tuple.sport = 0xAAAA ∧
    (set_event_from_sock unreadableEnv sk_type.poison 4096).tuple.dport = 0xAAAA ∧
    (set_event_from_sock unreadableEnv sk_type.poison 4096).state = 0xAA ∧
    (set_event_from_sock unreadableEnv sk_type.poison 4096).type = 0xAAAA ∧
    (set_event_from_sock unreadableEnv sk_type.poison 4096).mark = 0xAAAAAAAA ∧
    (set_event_from_sock unreadableEnv sk_type.poison 4096).priority = 0xAAAAAAAA ∧
    set_event_from_sock inetSockEnv sk_type.poison 4096 ≠
      set_event_from_sock inetSockEnv sk_type.zero 4096 ∧
    (set_event_from_sock inetSockEnv sk_type.poison 4096).pad = List.replicate 5 0xAA := by
  decide

theorem probe_read_scalar_outcome (env : Env) (dst size src : Nat) :
    (∀ bs : List Byte, env.read src size = some bs →
      probe_read_scalar env dst size src = hostDecode env.littleEndian bs) ∧
    (env.read src size = none → probe_read_scalar env dst size src = dst) :=
  ⟨fun bs h => probe_read_scalar_some env dst size src bs h,
    fun h => probe_read_scalar_none env dst size src h⟩

theorem hostDecode_shift_mod (env : Env) (src : Nat) (bs : List Byte)
    (h : env.read src 2 = some bs) :
    (hostDecode env.littleEndian bs >>> 8) % 2 ^ 16 = hostDecode env.littleEndian bs >>> 8 := by
  have hlt := hostDecode_lt env.littleEndian bs
  rw [Env.read_length env 2 src bs h] at hlt
  rw [Nat.shiftRight_eq_div_pow]
  apply Nat.mod_eq_of_lt
  have hle : hostDecode env.littleEndian bs / 2 ^ 8 ≤ hostDecode env.littleEndian bs :=
    Nat.div_le_self _ _
  omega

/-- C13, amended: what set_event_from_sock leaves in the record, for every
input and every prior record d. The raw handle is the pointer value, and
each address buffer is the zeroed buffer, overwritten by the address read
for the family held in the output when that read succeeds: neither retains
prior content. Each of the scalar fields family, state, type, protocol,
mark, priority, source port and destination port is the value read when its
read succeeds (the protocol shifted under the 4-byte width, the destination
port converted by bpf_ntohs), and when its read fails it is the prior value
of that field (shifted, respectively converted, in the same way). The pad
bytes are those of d: they are never written. Hence a run on any other
prior record d2 gives the same record as soon as d and d2 agree on the pad
bytes and on every scalar field whose read fails. -/
theorem sock_prior_dependence (env : Env) (d : sk_type) (sk : Nat) (out : sk_type)
    (hout : out = set_event_from_sock env d sk) :
    out.sockaddr = sk % 2 ^ 64 ∧
    out.pad = d.pad ∧
    out.tuple.saddr =
      (if out.tuple.family = AF_INET then
        probe_read_bytes env AddrBuf.zero IPV4LEN (sk + env.sock.skc_rcv_saddr)
      else if out.tuple.family = AF_INET6 then
        probe_read_bytes env AddrBuf.zero IPV6LEN (sk + env.sock.skc_v6_rcv_saddr)
      else AddrBuf.zero) ∧
    out.tuple.daddr =
      (if out.tuple.family = AF_INET then
        probe_read_bytes env AddrBuf.zero IPV4LEN (sk + env.sock.skc_daddr)
      else if out.tuple.family = AF_INET6 then
        probe_read_bytes env AddrBuf.zero IPV6LEN (sk + env.sock.skc_v6_daddr)
      else AddrBuf.zero) ∧
    ((∀ bs : List Byte, env.read (sk + env.sock.skc_family) 2 = some bs →
        out.tuple.family = hostDecode env.littleEndian bs) ∧
      (env.read (sk + env.sock.skc_family) 2 = none → out.tuple.family = d.tuple.family)) ∧
    ((∀ bs : List Byte, env.read (sk + env.sock.skc_state) 1 = some bs →
        out.state = hostDecode env.littleEndian bs) ∧
      (env.read (sk + env.sock.skc_state) 1 = none → out.state = d.state)) ∧
    ((∀ bs : List Byte, env.read (sk + env.sock.sk_type) 2 = some bs →
        out.type = hostDecode env.littleEndian bs) ∧
      (env.read (sk + env.sock.sk_type) 2 = none → out.type = d.type)) ∧
    ((∀ bs : List Byte, env.read (sk + env.sock.sk_protocol) 2 = some bs →
        out.tuple.protocol =
          if env.sock.sk_protocol_size = 4 then hostDecode env.littleEndian bs >>> 8
          else hostDecode env.littleEndian bs) ∧
      (env.read (sk + env.sock.sk_protocol) 2 = none →
        out.tuple.protocol =
          if env.sock.sk_protocol_size = 4 then (d.tuple.protocol >>> 8) % 2 ^ 16
          else d.tuple.protocol)) ∧
    ((∀ bs : List Byte, env.read (sk + env.sock.sk_mark) 4 = some bs →
        out.mark = hostDecode env.littleEndian bs) ∧
      (env.read (sk + env.sock.sk_mark) 4 = none → out.mark = d.mark)) ∧
    ((∀ bs : List Byte, env.read (sk + env.sock.sk_priority) 4 = some bs →
        out.priority = hostDecode env.littleEndian bs) ∧
      (env.read (sk + env.sock.sk_priority) 4 = none → out.priority = d.priority)) ∧
    ((∀ bs : List Byte, env.read (sk + env.sock.skc_num) 2 = some bs →
        out.tuple.sport = hostDecode env.littleEndian bs) ∧
      (env.read (sk + env.sock.skc_num) 2 = none → out.tuple.sport = d.tuple.sport)) ∧
    ((∀ bs : List Byte, env.read (sk + env.sock.skc_dport) 2 = some bs →
        out.tuple.dport = bpf_ntohs env.littleEndian (hostDecode env.littleEndian bs)) ∧
      (env.read (sk + env.sock.skc_dport) 2 = none →
        out.tuple.dport = bpf_ntohs env.littleEndian d.tuple.dport)) ∧
    (∀ d2 : sk_type, d.pad = d2.pad →
      (env.read (sk + env.sock.skc_family) 2 = none → d.tuple.family = d2.tuple.family) →
      (env.read (sk + env.sock.skc_state) 1 = none → d.state = d2.state) →
      (env.read (sk + env.sock.sk_type) 2 = none → d.type = d2.type) →
      (env.read (sk + env.sock.sk_protocol) 2 = none →
        d.tuple.protocol = d2.tuple.protocol) →
      (env.read (sk + env.sock.sk_mark) 4 = none → d.mark = d2.mark) →
      (env.read (sk + env.sock.sk_priority) 4 = none → d.priority = d2.priority) →
      (env.read (sk + env.sock.skc_num) 2 = none → d.tuple.sport = d2.tuple.sport) →
      (env.read (sk + env.sock.skc_dport) 2 = none → d.tuple.dport = d2.tuple.dport) →
      out = set_event_from_sock env d2 sk) := by
  subst hout
  refine ⟨sock_sockaddr_eq env d sk, sock_pad_eq env d sk, ?_, ?_, ?_, ?_, ?_, ?_, ?_, ?_,
    ?_, ?_, ?_⟩
  · rw [sock_saddr_eq, sock_family_eq]
  · rw [sock_daddr_eq, sock_family_eq]
  · rw [sock_family_eq]
    exact probe_read_scalar_outcome env _ _ _
  · rw [sock_state_eq]
    exact probe_read_scalar_outcome env _ _ _
  · rw [sock_type_eq]
    exact probe_read_scalar_outcome env _ _ _
  · rw [sock_protocol_eq]
    refine ⟨?_, ?_⟩
    · intro bs h
      rw [probe_read_scalar_some env _ _ _ bs h, hostDecode_shift_mod env _ bs h]
    · intro h
      rw [probe_read_scalar_none env _ _ _ h]
  · rw [sock_mark_eq]
    exact probe_read_scalar_outcome env _ _ _
  · rw [sock_priority_eq]
    exact probe_read_scalar_outcome env _ _ _
  · rw [sock_sport_eq]
    exact probe_read_scalar_outcome env _ _ _
  · rw [sock_dport_eq]
    refine ⟨?_, ?_⟩
    · intro bs h
      rw [probe_read_scalar_some env _ _ _ bs h]
    · intro h
      rw [probe_read_scalar_none env _ _ _ h]
  · intro d2 hpad hfamily hstate htype hprotocol hmark hpriority hsport hdport
    obtain ⟨h1, h2, h3, h4, h5, h6⟩ := sock_named_fields_prior env d d2 sk hfamily hstate
      htype hprotocol hmark hpriority hsport hdport
    refine sk_type.ext_record_fields h1 h2 h3 h4 h5 h6 ?_
    rw [sock_pad_eq, sock_pad_eq, hpad]

/-- Witness of the amended C13. With unreadable memory the poisoned record
keeps its family and its pad bytes, and the poisoned record with zeroed raw
handle and addresses gives the same output. With a fully readable socket
the mark read gives 7 over the poisoned mark, and the zero record carrying
the poisoned pad bytes gives the same output as the poisoned record. -/
theorem sock_prior_dependence_witness :
    ((set_event_from_sock unreadableEnv sk_type.poison 4096).tuple.family = 0xAAAA ∧
      (set_event_from_sock unreadableEnv sk_type.poison 4096).pad = List.replicate 5 0xAA ∧
      sk_type.poison ≠ sk_type.poisonScalars ∧
      set_event_from_sock unreadableEnv sk_type.poison 4096 =
        set_event_from_sock unreadableEnv sk_type.poisonScalars 4096) ∧
    ((set_event_from_sock inetSockEnv sk_type.poison 4096).mark = 7 ∧
      (set_event_from_sock inetSockEnv sk_type.poison 4096).sockaddr = 4096 ∧
      set_event_from_sock inetSockEnv sk_type.poison 4096 =
        set_event_from_sock inetSockEnv sk_type.zeroPoisonPad 4096) := by
  have hfail := sock_prior_dependence unreadableEnv sk_type.poison 4096 _ rfl
  have hread := sock_prior_dependence inetSockEnv sk_type.poison 4096 _ rfl
  refine ⟨⟨hfail.2.2.2.2.1.2 (by decide), hfail.2.1, by decide, ?_⟩,
    ⟨(hread.2.2.2.2.2.2.2.2.1.1 [7, 0, 0, 0] (by decide)).trans (by decide),
      hread.1.trans (by decide), ?_⟩⟩
  · apply hfail.2.2.2.2.2.2.2.2.2.2.2.2 sk_type.poisonScalars
    all_goals first
      | rfl
      | (intro _; rfl)
  · apply hread.2.2.2.2.2.2.2.2.2.2.2.2 sk_type.zeroPoisonPad
    all_goals first
      | rfl
      | (intro hfailed; exact absurd hfailed (by decide))

/-- C17: when the reads of the scalar fields of set_event_from_sock all
succeed (whether or not the address reads do), the outputs for any two prior
records agree on every named field: raw handle, family, protocol, both
addresses, both ports, state, type, mark and priority. The pad bytes are
never written: each output keeps the pad bytes of its prior record. -/
theorem sock_noninterference (env : Env) (d1 d2 : sk_type) (sk : Nat)
    (hfamily : env.read (sk + env.sock.skc_family) 2 ≠ none)
    (hstate : env.read (sk + env.sock.skc_state) 1 ≠ none)
    (htype : env.read (sk + env.sock.sk_type) 2 ≠ none)
    (hprotocol : env.read (sk + env.sock.sk_protocol) 2 ≠ none)
    (hmark : env.read (sk + env.sock.sk_mark) 4 ≠ none)
    (hpriority : env.read (sk + env.sock.sk_priority) 4 ≠ none)
    (hsport : env.read (sk + env.sock.skc_num) 2 ≠ none)
    (hdport : env.read (sk + env.sock.skc_dport) 2 ≠ none) :
    (set_event_from_sock env d1 sk).sockaddr = (set_event_from_sock env d2 sk).sockaddr ∧
    (set_event_from_sock env d1 sk).tuple.family =
      (set_event_from_sock env d2 sk).tuple.family ∧
    (set_event_from_sock env d1 sk).tuple.protocol =
      (set_event_from_sock env d2 sk).tuple.protocol ∧
    (set_event_from_sock env d1 sk).tuple.saddr =
      (set_event_from_sock env d2 sk).tuple.saddr ∧
    (set_event_from_sock env d1 sk).tuple.daddr =
      (set_event_from_sock env d2 sk).tuple.daddr ∧
    (set_event_from_sock env d1 sk).tuple.sport =
      (set_event_from_sock env d2 sk).tuple.sport ∧
    (set_event_from_sock env d1 sk).tuple.dport =
      (set_event_from_sock env d2 sk).tuple.dport ∧
    (set_event_from_sock env d1 sk).state = (set_event_from_sock env d2 sk).state ∧
    (set_event_from_sock env d1 sk).type = (set_event_from_sock env d2 sk).type ∧
    (set_event_from_sock env d1 sk).mark = (set_event_from_sock env d2 sk).mark ∧
    (set_event_from_sock env d1 sk).priority = (set_event_from_sock env d2 sk).priority ∧
    (set_event_from_sock env d1 sk).pad = d1.pad ∧
    (set_event_from_sock env d2 sk).pad = d2.pad := by
  obtain ⟨h1, h2, h3, h4, h5, h6⟩ := sock_named_fields_prior env d1 d2 sk
    (fun h => absurd h hfamily) (fun h => absurd h hstate) (fun h => absurd h htype)
    (fun h => absurd h hprotocol) (fun h => absurd h hmark) (fun h => absurd h hpriority)
    (fun h => absurd h hsport) (fun h => absurd h hdport)
  refine ⟨h2, ?_, ?_, ?_, ?_, ?_, ?_, h6, h5, h3, h4, sock_pad_eq env d1 sk,
    sock_pad_eq env d2 sk⟩ <;> rw [h1]

/-- Witness of C17: the readable AF_INET socket, snapshot into the poisoned
record and into the zero record: the two outputs have the same named fields
and differ in the pad bytes. -/
theorem sock_noninterference_witness :
    (set_event_from_sock inetSockEnv sk_type.poison 4096).tuple =
      (set_event_from_sock inetSockEnv sk_type.zero 4096).tuple ∧
    (set_event_from_sock inetSockEnv sk_type.poison 4096).pad = List.replicate 5 0xAA ∧
    (set_event_from_sock inetSockEnv sk_type.zero 4096).pad = List.replicate 5 0 :=
  have h := sock_noninterference inetSockEnv sk_type.poison sk_type.zero 4096
    (by decide) (by decide) (by decide) (by decide) (by decide) (by decide) (by decide)
    (by decide)
  ⟨by decide, h.2.2.2.2.2.2.2.2.2.2.2.1, h.2.2.2.2.2.2.2.2.2.2.2.2⟩

/-! ## Dependence of set_event_from_sockaddr on the prior record -/

/-- C14, counterexample: the tuple that set_event_from_sockaddr leaves depends
on the prior record. For a readable AF_UNIX address structure the output
tuple keeps the protocol of the poisoned record, so it differs from the
output tuple for the zero record; for an unreadable address structure the
zero record with family AF_INET keeps that family, while the zero record
gives family AF_UNSPEC. -/
theorem sockaddr_tuple_prior_counterexample :
    (set_event_from_sockaddr unixSockaddrEnv sk_type.poison 100).tuple ≠
      (set_event_from_sockaddr unixSockaddrEnv sk_type.zero 100).tuple ∧
    (set_event_from_sockaddr unixSockaddrEnv sk_type.poison 100).tuple.protocol = 0xAAAA ∧
    (set_event_from_sockaddr unixSockaddrEnv sk_type.zero 100).tuple.protocol = 0 ∧
    (set_event_from_sockaddr unreadableEnv sk_type.zeroInet 100).tuple ≠
      (set_event_from_sockaddr unreadableEnv sk_type.zero 100).tuple ∧
    (set_event_from_sockaddr unreadableEnv sk_type.zeroInet 100).tuple.family = AF_INET ∧
    (set_event_from_sockaddr unreadableEnv sk_type.zero 100).tuple.family = AF_UNSPEC := by
  decide

/-- C14, amended: the tuple that set_event_from_sockaddr leaves, for every
address structure, readable or not, and every prior record. The destination
address is zero, the destination port is zero and the protocol is the prior
protocol, which this path does not write. The other fields follow the
family held in the record after the family read, which is the tag read, or
the prior family when that read fails. For AF_INET the output family is
AF_INET, the first 4 bytes of the source address are the bytes of sin_addr
and the source port is the value of sin_port, each when its read succeeds; a
failed address or port read leaves the whole source address, respectively
the source port, at its prior value. For AF_INET6 the output family is
AF_INET6, the source address is the 16 bytes of sin6_addr and the source
port the value of sin6_port, with the same rule for failed reads. For any
other family the output family is AF_UNSPEC and the source address and the
source port are zero. -/
theorem sockaddr_tuple_population (env : Env) (event : sk_type) (addr : Nat) :
    (set_event_from_sockaddr env event addr).tuple.daddr.bytes = List.replicate 16 0 ∧
    (set_event_from_sockaddr env event addr).tuple.dport = 0 ∧
    (set_event_from_sockaddr env event addr).tuple.protocol = event.tuple.protocol ∧
    ((∀ fb : List Byte, env.read (addr + env.sa.sa_family) 2 = some fb →
        sockaddr_family env event addr = hostDecode env.littleEndian fb) ∧
      (env.read (addr + env.sa.sa_family) 2 = none →
        sockaddr_family env event addr = event.tuple.family)) ∧
    (sockaddr_family env event addr = AF_INET →
      (set_event_from_sockaddr env event addr).tuple.family = AF_INET ∧
      (∀ ab : List Byte, env.read (addr + env.sa.sin_addr) IPV4LEN = some ab →
        (set_event_from_sockaddr env event addr).tuple.saddr.bytes.take 4 = ab) ∧
      (env.read (addr + env.sa.sin_addr) IPV4LEN = none →
        (set_event_from_sockaddr env event addr).tuple.saddr = event.tuple.saddr) ∧
      (∀ pb : List Byte, env.read (addr + env.sa.sin_port) 2 = some pb →
        (set_event_from_sockaddr env event addr).tuple.sport =
          hostDecode env.littleEndian pb) ∧
      (env.read (addr + env.sa.sin_port) 2 = none →
        (set_event_from_sockaddr env event addr).tuple.sport = event.tuple.sport)) ∧
    (sockaddr_family env event addr = AF_INET6 →
      (set_event_from_sockaddr env event addr).tuple.family = AF_INET6 ∧
      (∀ ab : List Byte, env.read (addr + env.sa.sin6_addr) IPV6LEN = some ab →
        (set_event_from_sockaddr env event addr).tuple.saddr.bytes = ab) ∧
      (env.read (addr + env.sa.sin6_addr) IPV6LEN = none →
        (set_event_from_sockaddr env event addr).tuple.saddr = event.tuple.saddr) ∧
      (∀ pb : List Byte, env.read (addr + env.sa.sin6_port) 2 = some pb →
        (set_event_from_sockaddr env event addr).tuple.sport =
          hostDecode env.littleEndian pb) ∧
      (env.read (addr + env.sa.sin6_port) 2 = none →
        (set_event_from_sockaddr env event addr).tuple.sport = event.tuple.sport)) ∧
    (sockaddr_family env event addr ≠ AF_INET → sockaddr_family env event addr ≠ AF_INET6 →
      (set_event_from_sockaddr env event addr).tuple.family = AF_UNSPEC ∧
      (set_event_from_sockaddr env event addr).tuple.saddr.bytes = List.replicate 16 0 ∧
      (set_event_from_sockaddr env event addr).tuple.sport = 0) := by
  refine ⟨?_, sockaddr_dport_eq env event addr, sockaddr_protocol_eq env event addr,
    probe_read_scalar_outcome env _ _ _, ?_, ?_, ?_⟩
  · rw [sockaddr_daddr_eq]
    rfl
  · intro h4
    refine ⟨?_, ?_, ?_, ?_, ?_⟩
    · rw [sockaddr_family_eq, if_pos h4]
    · intro ab ha
      rw [sockaddr_saddr_eq, if_pos h4, probe_read_bytes_some env _ _ _ ab ha,
        AddrBuf.write_four _ ab (Env.read_length env 4 _ ab ha)]
      exact List.take_left' (Env.read_length env 4 _ ab ha)
    · intro ha
      rw [sockaddr_saddr_eq, if_pos h4, probe_read_bytes_none env _ _ _ ha]
    · intro pb hp
      rw [sockaddr_sport_eq, if_pos h4, probe_read_scalar_some env _ _ _ pb hp]
    · intro hp
      rw [sockaddr_sport_eq, if_pos h4, probe_read_scalar_none env _ _ _ hp]
  · intro h6
    have hne : sockaddr_family env event addr ≠ AF_INET := by
      rw [h6]
      decide
    refine ⟨?_, ?_, ?_, ?_, ?_⟩
    · rw [sockaddr_family_eq, if_neg hne, if_pos h6]
    · intro ab ha
      rw [sockaddr_saddr_eq, if_neg hne, if_pos h6, probe_read_bytes_some env _ _ _ ab ha]
      exact AddrBuf.write_sixteen _ ab (Env.read_length env 16 _ ab ha)
    · intro ha
      rw [sockaddr_saddr_eq, if_neg hne, if_pos h6, probe_read_bytes_none env _ _ _ ha]
    · intro pb hp
      rw [sockaddr_sport_eq, if_neg hne, if_pos h6, probe_read_scalar_some env _ _ _ pb hp]
    · intro hp
      rw [sockaddr_sport_eq, if_neg hne, if_pos h6, probe_read_scalar_none env _ _ _ hp]
  · intro h4 h6
    refine ⟨?_, ?_, ?_⟩
    · rw [sockaddr_family_eq, if_neg h4, if_neg h6]
    · rw [sockaddr_saddr_eq, if_neg h4, if_neg h6]
      rfl
    · rw [sockaddr_sport_eq, if_neg h4, if_neg h6]

/-- Witness of the amended C14. The readable sockaddr_in, snapshot into the
poisoned record: family AF_INET, first address bytes 10.0.0.1, source port
0x0050, zero destination, poisoned protocol kept. The unreadable structure,
snapshot into the zero record of family AF_INET: the family read fails and
the prior family AF_INET is dispatched on, the failed address and port
reads leave the zero source address and source port, and the destination is
zero. -/
theorem sockaddr_tuple_population_witness :
    ((set_event_from_sockaddr inetSockaddrEnv sk_type.poison 100).tuple.daddr.bytes =
        List.replicate 16 0 ∧
      (set_event_from_sockaddr inetSockaddrEnv sk_type.poison 100).tuple.dport = 0 ∧
      (set_event_from_sockaddr inetSockaddrEnv sk_type.poison 100).tuple.protocol = 0xAAAA ∧
      (set_event_from_sockaddr inetSockaddrEnv sk_type.poison 100).tuple.family = AF_INET ∧
      (set_event_from_sockaddr inetSockaddrEnv sk_type.poison 100).tuple.saddr.bytes.take 4 =
        [10, 0, 0, 1] ∧
      (set_event_from_sockaddr inetSockaddrEnv sk_type.poison 100).tuple.sport = 0x0050) ∧
    ((set_event_from_sockaddr unreadableEnv sk_type.zeroInet 100).tuple.daddr.bytes =
        List.replicate 16 0 ∧
      (set_event_from_sockaddr unreadableEnv sk_type.zeroInet 100).tuple.family = AF_INET ∧
      (set_event_from_sockaddr unreadableEnv sk_type.zeroInet 100).tuple.saddr =
        AddrBuf.zero ∧
      (set_event_from_sockaddr unreadableEnv sk_type.zeroInet 100).tuple.sport = 0) :=
  have h := sockaddr_tuple_population inetSockaddrEnv sk_type.poison 100
  have h4 := h.2.2.2.2.1 (by decide)
  have u := sockaddr_tuple_population unreadableEnv sk_type.zeroInet 100
  have u4 := u.2.2.2.2.1 (by decide)
  ⟨⟨h.1, h.2.1, h.2.2.1, h4.1, h4.2.1 [10, 0, 0, 1] (by decide),
      (h4.2.2.2.1 [0x50, 0x00] (by decide)).trans (by decide)⟩,
    ⟨u.1, u4.1, u4.2.2.1 (by decide), u4.2.2.2.2 (by decide)⟩⟩

/-- C15, failing input: a struct sockaddr_in with address 10.0.0.1, snapshot
into a record whose every byte is 0xAA. The source address buffer holds the
4 address bytes followed by the 12 bytes 0xAA of the prior record, not by
zeros: the AF_INET branch zeroes the destination address only. -/
theorem sockaddr_ipv4_stale_source_address :
    (set_event_from_sockaddr inetSockaddrEnv sk_type.poison 100).tuple.family = AF_INET ∧
    (set_event_from_sockaddr inetSockaddrEnv sk_type.poison 100).tuple.saddr.bytes =
      [10, 0, 0, 1, 0xAA, 0xAA, 0xAA, 0xAA, 0xAA, 0xAA, 0xAA, 0xAA, 0xAA, 0xAA, 0xAA, 0xAA] ∧
    (set_event_from_sockaddr inetSockaddrEnv sk_type.poison 100).tuple.saddr.bytes.drop 4 ≠
      List.replicate 12 0 ∧
    (set_event_from_sockaddr inetSockaddrEnv sk_type.poison 100).tuple.daddr.bytes =
      List.replicate 16 0 := by
  decide

/-! ## Determinism and re-application -/

/-- C16: the output of each routine on a freshly zeroed record is determined
by the input alone: two invocations with the same byte order, the same
storage width of sk_protocol, the same pointer and the same outcomes of the
reads of the routine produce the same record, bit for bit. -/
theorem snapshot_deterministic (env1 env2 : Env) (sk addr : Nat)
    (hle : env1.littleEndian = env2.littleEndian)
    (hwidth : env1.sock.sk_protocol_size = env2.sock.sk_protocol_size)
    (hsock : sock_reads env1 sk = sock_reads env2 sk)
    (hsa : sockaddr_reads env1 addr = sockaddr_reads env2 addr) :
    set_event_from_sock env1 sk_type.zero sk = set_event_from_sock env2 sk_type.zero sk ∧
    set_event_from_sockaddr env1 sk_type.zero addr =
      set_event_from_sockaddr env2 sk_type.zero addr := by
  simp only [sock_reads, List.cons.injEq, and_true] at hsock
  obtain ⟨r1, r2, r3, r4, r5, r6, r7, r8, r9, r10, r11, r12⟩ := hsock
  simp only [sockaddr_reads, List.cons.injEq, and_true] at hsa
  obtain ⟨s1, s2, s3, s4, s5⟩ := hsa
  constructor
  · simp only [set_event_from_sock, probe_read_scalar, probe_read_bytes, r1, r2, r3, r4, r5,
      r6, r7, r8, r9, r10, r11, r12, hle, hwidth]
  · simp only [set_event_from_sockaddr, probe_read_scalar, probe_read_bytes, s1, s2, s3, s4,
      s5, hle]

/-- Witness of C16: two targets with different memories (the second has one
more readable byte outside of the objects read) holding the same socket at
4096 and the same address structure at 100. -/
theorem snapshot_deterministic_witness :
    inetBothEnv.mem 5000 ≠ inetBothEnvExtra.mem 5000 ∧
    set_event_from_sock inetBothEnv sk_type.zero 4096 =
      set_event_from_sock inetBothEnvExtra sk_type.zero 4096 ∧
    set_event_from_sockaddr inetBothEnv sk_type.zero 100 =
      set_event_from_sockaddr inetBothEnvExtra sk_type.zero 100 :=
  ⟨by decide,
    snapshot_deterministic inetBothEnv inetBothEnvExtra 4096 100 rfl rfl (by decide)
      (by decide)⟩

theorem probe_read_scalar_idem (env : Env) (dst size src : Nat) :
    probe_read_scalar env (probe_read_scalar env dst size src) size src =
      probe_read_scalar env dst size src := by
  cases h : env.read src size with
  | none => simp only [probe_read_scalar, h]
  | some bs => simp only [probe_read_scalar, h]

theorem probe_read_bytes_idem (env : Env) (dst : AddrBuf) (size src : Nat) (hsize : size ≤ 16) :
    probe_read_bytes env (probe_read_bytes env dst size src) size src =
      probe_read_bytes env dst size src := by
  cases h : env.read src size with
  | none => simp only [probe_read_bytes, h]
  | some bs =>
    simp only [probe_read_bytes, h]
    exact AddrBuf.write_write dst bs (by rw [Env.read_length env size src bs h]; exact hsize)

theorem sockaddr_family_reapply (env : Env) (event : sk_type) (addr : Nat) :
    (sockaddr_family env (set_event_from_sockaddr env event addr) addr = AF_INET ↔
      sockaddr_family env event addr = AF_INET) ∧
    (sockaddr_family env (set_event_from_sockaddr env event addr) addr = AF_INET6 ↔
      sockaddr_family env event addr = AF_INET6) := by
  cases h : env.read (addr + env.sa.sa_family) 2 with
  | none =>
    have hf2 : sockaddr_family env (set_event_from_sockaddr env event addr) addr =
        (set_event_from_sockaddr env event addr).tuple.family :=
      probe_read_scalar_none env _ _ _ h
    rw [hf2, sockaddr_family_eq]
    split_ifs with h4 h6
    · simp only [h4, true_iff, iff_false]
      decide
    · simp only [h6, iff_true, iff_false]
      decide
    · simp only [h4, h6, iff_false]
      decide
  | some bs =>
    have hf : sockaddr_family env event addr = hostDecode env.littleEndian bs :=
      probe_read_scalar_some env _ _ _ bs h
    have hf2 : sockaddr_family env (set_event_from_sockaddr env event addr) addr =
        hostDecode env.littleEndian bs := probe_read_scalar_some env _ _ _ bs h
    rw [hf, hf2]
    exact ⟨Iff.rfl, Iff.rfl⟩

/-- C19: applying set_event_from_sockaddr to its own output, with the same
address structure and the same outcomes of the reads, gives that output
again, for every prior record. The same does not hold of
set_event_from_sock: on a target where no address is readable, a second
application swaps the bytes of the kept destination port again, and with a
4-byte sk_protocol it shifts the kept protocol again. -/
theorem sockaddr_reapply (env : Env) (event : sk_type) (addr : Nat) :
    set_event_from_sockaddr env (set_event_from_sockaddr env event addr) addr =
      set_event_from_sockaddr env event addr ∧
    set_event_from_sock unreadableEnv
        (set_event_from_sock unreadableEnv sk_type.zeroStale 4096) 4096 ≠
      set_event_from_sock unreadableEnv sk_type.zeroStale 4096 ∧
    (set_event_from_sock unreadableEnv sk_type.zeroStale 4096).tuple.dport = 0x5000 ∧
    (set_event_from_sock unreadableEnv
      (set_event_from_sock unreadableEnv sk_type.zeroStale 4096) 4096).tuple.dport = 0x0050 ∧
    (set_event_from_sock oldKernelUnreadableEnv sk_type.zeroStale 4096).tuple.protocol = 6 ∧
    (set_event_from_sock oldKernelUnreadableEnv
      (set_event_from_sock oldKernelUnreadableEnv sk_type.zeroStale 4096) 4096).tuple.protocol
      = 0 := by
  refine ⟨?_, by decide, by decide, by decide, by decide, by decide⟩
  obtain ⟨hr4, hr6⟩ := sockaddr_family_reapply env event addr
  obtain ⟨h1, h2, h3, h4, h5, h6⟩ :=
    sockaddr_rest_eq env (set_event_from_sockaddr env event addr) addr
  refine sk_type.ext_record_fields (tuple_type.ext_tuple_fields ?_ ?_ ?_ ?_ ?_ ?_) h1 h2 h3 h4 h5 h6
  · rw [sockaddr_saddr_eq env (set_event_from_sockaddr env event addr)]
    by_cases c4 : sockaddr_family env event addr = AF_INET
    · rw [if_pos (hr4.2 c4), sockaddr_saddr_eq env event, if_pos c4]
      exact probe_read_bytes_idem env _ _ _ (by decide)
    · by_cases c6 : sockaddr_family env event addr = AF_INET6
      · rw [if_neg (fun h => c4 (hr4.1 h)), if_pos (hr6.2 c6), sockaddr_saddr_eq env event,
          if_neg c4, if_pos c6]
        exact probe_read_bytes_idem env _ _ _ (by decide)
      · rw [if_neg (fun h => c4 (hr4.1 h)), if_neg (fun h => c6 (hr6.1 h)),
          sockaddr_saddr_eq env event, if_neg c4, if_neg c6]
  · rw [sockaddr_daddr_eq, sockaddr_daddr_eq]
  · rw [sockaddr_sport_eq env (set_event_from_sockaddr env event addr)]
    by_cases c4 : sockaddr_family env event addr = AF_INET
    · rw [if_pos (hr4.2 c4), sockaddr_sport_eq env event, if_pos c4]
      exact probe_read_scalar_idem env _ _ _
    · by_cases c6 : sockaddr_family env event addr = AF_INET6
      · rw [if_neg (fun h => c4 (hr4.1 h)), if_pos (hr6.2 c6), sockaddr_sport_eq env event,
          if_neg c4, if_pos c6]
        exact probe_read_scalar_idem env _ _ _
      · rw [if_neg (fun h => c4 (hr4.1 h)), if_neg (fun h => c6 (hr6.1 h)),
          sockaddr_sport_eq env event, if_neg c4, if_neg c6]
  · rw [sockaddr_dport_eq, sockaddr_dport_eq]
  · rw [sockaddr_protocol_eq]
  · rw [sockaddr_family_eq env (set_event_from_sockaddr env event addr)]
    by_cases c4 : sockaddr_family env event addr = AF_INET
    · rw [if_pos (hr4.2 c4), sockaddr_family_eq env event, if_pos c4]
    · by_cases c6 : sockaddr_family env event addr = AF_INET6
      · rw [if_neg (fun h => c4 (hr4.1 h)), if_pos (hr6.2 c6), sockaddr_family_eq env event,
          if_neg c4, if_pos c6]
      · rw [if_neg (fun h => c4 (hr4.1 h)), if_neg (fun h => c6 (hr6.1 h)),
          sockaddr_family_eq env event, if_neg c4, if_neg c6]

end Sock
